import Mathlib

/-!
# Verification of the projectron projection engine

A shallow embedding of the projectron Go library (projection.go, math.go and
the kernels file) into Lean 4.  Go `float64` values are idealised as real
numbers; Go strings are modelled as `String` / `List Char`; the Go map used
for the parameter set is modelled as an association list with
most-recent-write-first lookup; Go `error` values are strings carrying the
source messages; a Go runtime panic is modelled explicitly.

`strconv.ParseFloat` is modelled by an exact decimal parser into `ℚ`
(covering the sign / digits / decimal-point forms that appear in projection
definition strings and in the built-in catalogs); on malformed input it
returns `none`, matching the Go call sites which either test the `ok` flag
or fall back to the value `0` that Go returns alongside a syntax error.
-/

namespace Projectron

/-- Characters treated as space by `strings.TrimSpace` (ASCII subset). -/
def isSpaceChar (c : Char) : Bool :=
  c = ' ' ∨ c = '\t' ∨ c = '\n' ∨ c = '\r'

/-- Model of `strings.TrimSpace` on a character list. -/
def trimChars (l : List Char) : List Char :=
  ((l.dropWhile isSpaceChar).reverse.dropWhile isSpaceChar).reverse

/-- Model of `strings.Split(s, sep)` for a one-character separator:
splits at every occurrence, producing `n+1` pieces for `n` separators. -/
def splitOnChar (sep : Char) : List Char → List (List Char)
  | [] => [[]]
  | c :: cs =>
    let r := splitOnChar sep cs
    if c = sep then [] :: r
    else
      match r with
      | h :: t => (c :: h) :: t
      | [] => [[c]]

/-- Digit list to natural number (most significant first). -/
def digitsVal (l : List Char) : ℕ :=
  l.foldl (fun acc c => 10 * acc + (c.toNat - '0'.toNat)) 0

/-- `all digits and nonempty` check. -/
def allDigits (l : List Char) : Bool :=
  l.all (fun c => '0' ≤ c ∧ c ≤ '9')

/-- Model of `strconv.ParseFloat` (decimal forms, parsed exactly into `ℚ`):
optional sign, then either `digits`, `digits.digits?`, or `.digits`.
Returns `none` where Go reports a syntax error. -/
def parseRat (l : List Char) : Option ℚ :=
  let (neg, rest) :=
    match l with
    | '-' :: r => (true, r)
    | '+' :: r => (false, r)
    | r => (false, r)
  let intPart := rest.takeWhile (fun c => decide ('0' ≤ c ∧ c ≤ '9'))
  let rest₂ := rest.dropWhile (fun c => decide ('0' ≤ c ∧ c ≤ '9'))
  let mag : Option ℚ :=
    match rest₂ with
    | [] =>
      if intPart = [] then none
      else some (digitsVal intPart)
    | '.' :: frac =>
      if allDigits frac ∨ (frac = [] ∧ intPart ≠ []) then
        if intPart = [] ∧ frac = [] then none
        else some ((digitsVal intPart : ℚ) + (digitsVal frac : ℚ) / (10 ^ frac.length))
      else none
    | _ => none
  mag.map (fun q => if neg then -q else q)

/-- Model of `strconv.ParseBool`. -/
def parseBool (l : List Char) : Option Bool :=
  if l = ['1'] ∨ l = ['t'] ∨ l = ['T'] ∨ l = "TRUE".toList ∨ l = "true".toList
      ∨ l = "True".toList then some true
  else if l = ['0'] ∨ l = ['f'] ∨ l = ['F'] ∨ l = "FALSE".toList
      ∨ l = "false".toList ∨ l = "False".toList then some false
  else none

/-! ## Constants from math.go and projection.go

In Go, `1 / 6` and the other series coefficients are quotients of untyped
integer constants, so they evaluate by integer division to `0` before the
conversion to `float64`; the embedding keeps those (surprising) values. -/

/-- `s_pi float64 = 3.14159265359` (the rounded constant from proj.4's adjlon). -/
noncomputable def s_pi : ℝ := 3.14159265359

/-- `two_pi float64 = math.Pi * 2`. -/
noncomputable def two_pi : ℝ := Real.pi * 2

/-- `half_pi float64 = math.Pi / 2`. -/
noncomputable def half_pi : ℝ := Real.pi / 2

/-- `fort_pi float64 = math.Pi / 4`. -/
noncomputable def fort_pi : ℝ := Real.pi / 4

/-- `d2r float64 = math.Pi / 180`. -/
noncomputable def d2r : ℝ := Real.pi / 180

/-- Go `sixth float64 = 1 / 6`: integer constant division, hence `0`. -/
def sixth : ℝ := 0

/-- Go `ra4 = 17 / 360`: integer constant division, hence `0`. -/
def ra4 : ℝ := 0

/-- Go `ra6 = 67 / 3024`: integer constant division, hence `0`. -/
def ra6 : ℝ := 0

/-- Go `rv4 = 5 / 72`: integer constant division, hence `0`. -/
def rv4 : ℝ := 0

/-- Go `rv6 = 55 / 1296`: integer constant division, hence `0`. -/
def rv6 : ℝ := 0

/-- `sec2rad = 4.84813681109535993589914102357e-6` (arc-seconds to radians). -/
noncomputable def sec2rad : ℝ := 4.84813681109535993589914102357e-6

/-- `epsln = 1.0e-10`. -/
noncomputable def epsln : ℝ := 1.0e-10

/-- Error message of `ErrUnsupportedProj`. -/
def errUnsupportedProj : String := "This is not a supported Projection"

/-- Error message of `ErrInvalidParam`. -/
def errInvalidParam : String := "We encountered an illegal parameter"

/-- Error message raised by `commonFwd`/`commonInv` on out-of-range data. -/
def outOfBoundsMsg : String := "this is way out of bounds"

/-!  `hugeVal = math.Inf(1)` is the sentinel coordinate value.  Coordinates
that may carry the sentinel are modelled as `Option ℝ`, with `none` standing
for `hugeVal` (the sentinel is an infinity, not a real number). -/

/-! ## math.go numeric helpers -/

/-- `msfn(sinphi, cosphi, es) = cosphi / sqrt(1 - es*sinphi*sinphi)`. -/
noncomputable def msfn (sinphi cosphi es : ℝ) : ℝ :=
  cosphi / Real.sqrt (1 - es * sinphi * sinphi)

/-- `tsfn(phi, sinphi, e)`: first `sinphi *= e`, then
`tan(0.5*(half_pi-phi)) / ((1-sinphi)/(1+sinphi))^(0.5*e)`
(`math.Pow` with a real exponent is modelled by `Real.rpow`). -/
noncomputable def tsfn (phi sinphi e : ℝ) : ℝ :=
  let sinphi := sinphi * e
  Real.tan (0.5 * (half_pi - phi)) / ((1 - sinphi) / (1 + sinphi)) ^ (0.5 * e)

/-- The loop body of `phi2`: Go runs `for i := 0; i <= 15`, i.e. 16
iterations; running out of fuel is the non-convergence error (Go returns
`math.Inf(-1)` together with the error). -/
noncomputable def phi2Loop (e ts eth : ℝ) : ℕ → ℝ → Except String ℝ
  | 0, _ => .error "phi2 has no convergence"
  | n + 1, phi =>
    let con := e * Real.sin phi
    let dphi :=
      half_pi - 2 * Real.arctan (ts * ((1 - con) / (1 + con)) ^ eth) - phi
    let phi := phi + dphi
    if |dphi| < epsln then .ok phi else phi2Loop e ts eth n phi

/-- `phi2(e, ts)`: iterative inverse-latitude solver, started from the
spherical estimate `half_pi - 2*atan(ts)`. -/
noncomputable def phi2 (e ts : ℝ) : Except String ℝ :=
  phi2Loop e ts (e * 0.5) 16 (half_pi - 2 * Real.arctan ts)

/-- `adjLng(x)`: identity when `|x| <= s_pi`; otherwise shift by pi, remove
whole turns with `math.Floor`, shift back. -/
noncomputable def adjLng (x : ℝ) : ℝ :=
  if |x| ≤ s_pi then x
  else
    let x := x + Real.pi
    let x := x - two_pi * (⌊x / two_pi⌋ : ℤ)
    x - Real.pi

/-! ## Parameter set -/

/-- `paramset`: a Go `map[string]string`, modelled as an association list
where an insert shadows earlier bindings and lookup takes the most recent
binding. -/
abbrev Paramset := List (String × String)

/-- Map write `m[k] = v`. -/
def psInsert (m : Paramset) (k v : String) : Paramset := (k, v) :: m

/-- Map read: the most recent binding of `k`. -/
def psGet : Paramset → String → Option String
  | [], _ => none
  | (k, v) :: m, s => if k = s then some v else psGet m s

/-- `paramset.string(s)`: the `(value, ok)` pair as an `Option`. -/
def psString (m : Paramset) (s : String) : Option String := psGet m s

/-- `paramset.bool(s)`: present with empty value means `true`; otherwise
`strconv.ParseBool`, with a parse failure reported as not-ok. -/
def psBool (m : Paramset) (s : String) : Option Bool :=
  (psGet m s).bind fun v => if v = "" then some true else parseBool v.toList

/-- `paramset.float(s)`: `strconv.ParseFloat`, a parse failure is not-ok. -/
def psFloat (m : Paramset) (s : String) : Option ℚ :=
  (psGet m s).bind fun v => parseRat v.toList

/-- `parseDegreeString(ds)` from projection.go: optional part before `d`
(degrees), optional part before `'` (divided by 60), optional part before
`"` (divided by 360 — as in the source), optional trailing `W`/`S` sign
flip.  Each `strconv.ParseFloat` error is discarded, leaving 0, as in Go. -/
def parseDegreeString (ds : List Char) : ℚ :=
  let (res, ds) :=
    match ds.findIdx? (· = 'd') with
    | some idx => (((parseRat (ds.take idx)).getD 0), ds.drop (idx + 1))
    | none => ((parseRat ds).getD 0, ds)
  let (res, ds) :=
    match ds.findIdx? (· = '\'') with
    | some idx => (res + ((parseRat (ds.take idx)).getD 0) / 60, ds.drop (idx + 1))
    | none => (res, ds)
  let (res, ds) :=
    match ds.findIdx? (· = '"') with
    | some idx => (res + ((parseRat (ds.take idx)).getD 0) / 360, ds.drop (idx + 1))
    | none => (res, ds)
  if ds.getLast? = some 'W' ∨ ds.getLast? = some 'S' then -res else res

/-- `paramset.degree(s)`: `parseDegreeString(v) * d2r` when present. -/
noncomputable def psDegree (m : Paramset) (s : String) : Option ℝ :=
  (psGet m s).map fun v => ((parseDegreeString v.toList : ℚ) : ℝ) * d2r

/-- `keyVal(s)`: split on `=`; the value is kept only when the split has
exactly two pieces. -/
def keyVal (s : List Char) : String × String :=
  let defs := splitOnChar '=' s
  let key := defs.headD []
  let val := if defs.length = 2 then defs.getD 1 [] else []
  (String.mk key, String.mk val)

/-- The parameter-parsing loop at the top of `NewProjection`: split the
definition on `+`, trim each part, skip empty parts, store key/value. -/
def parseParams (str : String) : Paramset :=
  (splitOnChar '+' str.toList).foldl
    (fun m part =>
      let param := trimChars part
      if param = [] then m
      else
        let (key, val) := keyVal param
        psInsert m key val)
    []

/-! ## Reference catalogs (static data from projection.go) -/

/-- Go map-literal lookup by name (catalog keys are unique). -/
def lookupByName {α : Type} : List (String × α) → String → Option α
  | [], _ => none
  | (k, v) :: t, name => if k = name then some v else lookupByName t name

/-- A `datum` catalog record. -/
structure GoDatum where
  id : String
  definition : String
  ellipse : String
  comments : String

/-- The `datums_list` table. -/
def datums_catalog : List (String × GoDatum) :=
  [("WGS84", ⟨"WGS84", "towgs84=0,0,0", "WGS84", ""⟩),
   ("GGRS87", ⟨"GGRS87", "towgs84=-199.87,74.79,246.62", "GRS80",
      "Greek_Geodetic_Reference_System_1987"⟩),
   ("NAD83", ⟨"NAD83", "towgs84=0,0,0", "GRS80", "North_American_Datum_1983"⟩),
   ("NAD27", ⟨"NAD27", "nadgrids=@conus,@alaska,@ntv2_0.gsb,@ntv1_can.dat",
      "clrk66", "North_American_Datum_1927"⟩),
   ("potsdam", ⟨"potsdam", "towgs84=598.1,73.7,418.2,0.202,0.045,-2.455,6.7",
      "bessel", "Potsdam Rauenberg 1950 DHDN"⟩),
   ("carthage", ⟨"carthage", "towgs84=-263.0,6.0,431.0", "clrk80ign",
      "Carthage 1934 Tunisia"⟩),
   ("hermannskogel", ⟨"hermannskogel",
      "towgs84=577.326,90.129,463.919,5.137,1.474,5.297,2.4232",
      "bessel", "Hermannskogel"⟩),
   ("ire65", ⟨"ire65", "towgs84=482.530,-130.596,564.557,-1.042,-0.214,-0.631,8.15",
      "mod_airy", "Ireland 1965"⟩),
   ("nzgd49", ⟨"nzgd49", "towgs84=59.47,-5.04,187.44,0.47,-0.1,1.024,-4.5993",
      "intl", "New Zealand Geodetic Datum 1949"⟩),
   ("OSGB36", ⟨"OSGB36", "towgs84=446.448,-125.157,542.060,0.1502,0.2470,0.8421,-20.4894",
      "airy", "Airy 1830"⟩)]

/-- `datums_list` lookup. -/
def datums_list (name : String) : Option GoDatum :=
  lookupByName datums_catalog name

/-- An `ellipse` catalog record. -/
structure GoEllipse where
  id : String
  major : String
  ell : String
  name : String

/-- The `ellipse_list` table. -/
def ellipse_catalog : List (String × GoEllipse) :=
  [("MERIT", ⟨"MERIT", "a=6378137.0", "rf=298.257", "MERIT 1983"⟩),
   ("SGS85", ⟨"SGS85", "a=6378136.0", "rf=298.257", "Soviet Geodetic System 85"⟩),
   ("GRS80", ⟨"GRS80", "a=6378137.0", "rf=298.257222101", "GRS 1980(IUGG, 1980)"⟩),
   ("IAU76", ⟨"IAU76", "a=6378140.0", "rf=298.257", "IAU 1976"⟩),
   ("airy", ⟨"airy", "a=6377563.396", "b=6356256.910", "Airy 1830"⟩),
   ("APL4.9", ⟨"APL4.9", "a=6378137.0.", "rf=298.25", "Appl. Physics. 1965"⟩),
   ("NWL9D", ⟨"NWL9D", "a=6378145.0.", "rf=298.25", "Naval Weapons Lab., 1965"⟩),
   ("mod_airy", ⟨"mod_airy", "a=6377340.189", "b=6356034.446", "Modified Airy"⟩),
   ("andrae", ⟨"andrae", "a=6377104.43", "rf=300.0", "Andrae 1876 (Den., Iclnd.)"⟩),
   ("aust_SA", ⟨"aust_SA", "a=6378160.0", "rf=298.25", "Australian Natl & S. Amer. 1969"⟩),
   ("GRS67", ⟨"GRS67", "a=6378160.0", "rf=298.2471674270", "GRS 67(IUGG 1967)"⟩),
   ("bessel", ⟨"bessel", "a=6377397.155", "rf=299.1528128", "Bessel 1841"⟩),
   ("bess_nam", ⟨"bess_nam", "a=6377483.865", "rf=299.1528128", "Bessel 1841 (Namibia)"⟩),
   ("clrk66", ⟨"clrk66", "a=6378206.4", "b=6356583.8", "Clarke 1866"⟩),
   ("clrk80", ⟨"clrk80", "a=6378249.145", "rf=293.4663", "Clarke 1880 mod."⟩),
   ("clrk80ign", ⟨"clrk80ign", "a=6378249.2", "rf=293.4660212936269", "Clarke 1880 (IGN)."⟩),
   ("CPM", ⟨"CPM", "a=6375738.7", "rf=334.29", "Comm. des Poids et Mesures 1799"⟩),
   ("delmbr", ⟨"delmbr", "a=6376428.", "rf=311.5", "Delambre 1810 (Belgium)"⟩),
   ("engelis", ⟨"engelis", "a=6378136.05", "rf=298.2566", "Engelis 1985"⟩),
   ("evrst30", ⟨"evrst30", "a=6377276.345", "rf=300.8017", "Everest 1830"⟩),
   ("evrst48", ⟨"evrst48", "a=6377304.063", "rf=300.8017", "Everest 1948"⟩),
   ("evrst56", ⟨"evrst56", "a=6377301.243", "rf=300.8017", "Everest 1956"⟩),
   ("evrst69", ⟨"evrst69", "a=6377295.664", "rf=300.8017", "Everest 1969"⟩),
   ("evrstSS", ⟨"evrstSS", "a=6377298.556", "rf=300.8017", "Everest (Sabah & Sarawak)"⟩),
   ("fschr60", ⟨"fschr60", "a=6378166.", "rf=298.3", "Fischer (Mercury Datum) 1960"⟩),
   ("fschr60m", ⟨"fschr60m", "a=6378155.", "rf=298.3", "Modified Fischer 1960"⟩),
   ("fschr68", ⟨"fschr68", "a=6378150.", "rf=298.3", "Fischer 1968"⟩),
   ("helmert", ⟨"helmert", "a=6378200.", "rf=298.3", "Helmert 1906"⟩),
   ("hough", ⟨"hough", "a=6378270.0", "rf=297.", "Hough"⟩),
   ("intl", ⟨"intl", "a=6378388.0", "rf=297.", "International 1909 (Hayford)"⟩),
   ("krass", ⟨"krass", "a=6378245.0", "rf=298.3", "Krassovsky, 1942"⟩),
   ("kaula", ⟨"kaula", "a=6378163.", "rf=298.24", "Kaula 1961"⟩),
   ("lerch", ⟨"lerch", "a=6378139.", "rf=298.257", "Lerch 1979"⟩),
   ("mprts", ⟨"mprts", "a=6397300.", "rf=191.", "Maupertius 1738"⟩),
   ("new_intl", ⟨"new_intl", "a=6378157.5", "b=6356772.2", "New International 1967"⟩),
   ("plessis", ⟨"plessis", "a=6376523.", "b=6355863.", "Plessis 1817 (France)"⟩),
   ("SEasia", ⟨"SEasia", "a=6378155.0", "b=6356773.3205", "Southeast Asia"⟩),
   ("walbeck", ⟨"walbeck", "a=6376896.0", "b=6355834.8467", "Walbeck"⟩),
   ("WGS60", ⟨"WGS60", "a=6378165.0", "rf=298.3", "WGS 60"⟩),
   ("WGS66", ⟨"WGS66", "a=6378145.0", "rf=298.25", "WGS 66"⟩),
   ("WGS72", ⟨"WGS72", "a=6378135.0", "rf=298.26", "WGS 72"⟩),
   ("WGS84", ⟨"WGS84", "a=6378137.0", "rf=298.257223563", "WGS 84"⟩),
   ("sphere", ⟨"sphere", "a=6370997.0", "b=6370997.0", "Normal Sphere (r=6370997)"⟩)]

/-- `ellipse_list` lookup. -/
def ellipse_list (name : String) : Option GoEllipse :=
  lookupByName ellipse_catalog name

/-- A `unit` catalog record (`to_meter` is an exact decimal, kept in `ℚ`). -/
structure GoUnit where
  id : String
  to_meter : ℚ
  name : String

/-- The `units_list` table. -/
def units_catalog : List (String × GoUnit) :=
  [("km", ⟨"km", 1000, "Kilometer"⟩),
   ("m", ⟨"m", 1.0, "Meter"⟩),
   ("dm", ⟨"dm", 0.1, "Decimeter"⟩),
   ("cm", ⟨"cm", 0.01, "Centimeter"⟩),
   ("mm", ⟨"mm", 0.001, "Millimeter"⟩),
   ("kmi", ⟨"kmi", 1852.0, "International Nautical Mile"⟩),
   ("in", ⟨"in", 0.0254, "International Inch"⟩),
   ("ft", ⟨"ft", 0.3048, "International Foot"⟩),
   ("yd", ⟨"yd", 0.9144, "International Yard"⟩),
   ("mi", ⟨"mi", 1609.344, "International Statute Mile"⟩),
   ("fath", ⟨"fath", 1.8288, "International Fathom"⟩),
   ("ch", ⟨"ch", 20.1168, "International Chain"⟩),
   ("link", ⟨"link", 0.201168, "International Link"⟩),
   ("us-in", ⟨"us-in", 0.0254000508, "U.S. Surveyor's Inch"⟩),
   ("us-ft", ⟨"us-ft", 0.304800609601219, "U.S. Surveyor's Foot"⟩),
   ("us-yd", ⟨"us-yd", 0.914401828803658, "U.S. Surveyor's Yard"⟩),
   ("us-ch", ⟨"us-ch", 20.11684023368047, "U.S. Surveyor's Chain"⟩),
   ("us-mi", ⟨"us-mi", 1609.347218694437, "U.S. Surveyor's Statute Mile"⟩),
   ("ind-yd", ⟨"ind-yd", 0.91439523, "Indian Yard"⟩),
   ("ind-ft", ⟨"ind-ft", 0.30479841, "Indian Foot"⟩),
   ("ind-ch", ⟨"ind-ch", 20.11669506, "Indian Chain"⟩)]

/-- `units_list` lookup. -/
def units_list (name : String) : Option GoUnit :=
  lookupByName units_catalog name

/-- A `prime_meridian` catalog record. -/
structure GoPrimeMeridian where
  id : String
  defn : String

/-- The `pm_list` table. -/
def pm_catalog : List (String × GoPrimeMeridian) :=
  [("greenwich", ⟨"greenwich", "0dE"⟩),
   ("lisbon", ⟨"lisbon", "9d07'54.862\"W"⟩),
   ("paris", ⟨"paris", "2d20'14.025\"E"⟩),
   ("bogota", ⟨"bogota", "74d04'51.3\"W"⟩),
   ("madrid", ⟨"madrid", "3d41'16.58\"W"⟩),
   ("rome", ⟨"rome", "12d27'8.4\"E"⟩),
   ("bern", ⟨"bern", "7d26'22.5\"E"⟩),
   ("jakarta", ⟨"jakarta", "106d48'27.79\"E"⟩),
   ("ferro", ⟨"ferro", "17d40'W"⟩),
   ("brussels", ⟨"brussels", "4d22'4.71\"E"⟩),
   ("stockholm", ⟨"stockholm", "18d3'29.8\"E"⟩),
   ("athens", ⟨"athens", "23d42'58.815\"E"⟩),
   ("oslo", ⟨"oslo", "10d43'22.5\"E"⟩)]

/-- `pm_list` lookup. -/
def pm_list (name : String) : Option GoPrimeMeridian :=
  lookupByName pm_catalog name

/-! ## The resolved configuration record -/

/-- The `datumType` enumeration. -/
inductive DatumType where
  | unknown
  | gridshift
  | sevenParam
  | threeParam
  | wgs84
deriving DecidableEq

/-- The `pj` record.  Fields keep the Go names; `datumParams` is `none` for
the Go `nil` slice and otherwise the 7-element vector. -/
structure Pj where
  proj : String := ""
  axis : String := ""
  datumType : DatumType := .unknown
  datumParams : Option (List ℝ) := none
  catalogName : String := ""
  a : ℝ := 0
  es : ℝ := 0
  e : ℝ := 0
  ra : ℝ := 0
  lam0 : ℝ := 0
  phi0 : ℝ := 0
  k0 : ℝ := 0
  x0 : ℝ := 0
  y0 : ℝ := 0
  oneEs : ℝ := 0
  rOneEs : ℝ := 0
  aOrig : ℝ := 0
  esOrig : ℝ := 0
  geoc : Bool := false
  over : Bool := false
  long_wrap_set : Bool := false
  long_wrap_center : ℝ := 0
  to_meter : ℝ := 0
  fr_meter : ℝ := 0
  vto_meter : ℝ := 0
  vfr_meter : ℝ := 0
  from_greenwich : ℝ := 0

/-! ## Datum and ellipsoid resolution -/

/-- The write loop `for i, f := range parts { p.datumParams[i], _ = ParseFloat(f) }`
over the 7-element slice: an index at or past the slice length is the Go
runtime panic (index out of range), modelled as `none`.  A float parse error
is discarded, leaving the value `0` Go returns alongside the error. -/
def writeDatumParams (dp : List ℝ) (parts : List (List Char)) (i : ℕ) :
    Option (List ℝ) :=
  match parts with
  | [] => some dp
  | f :: fs =>
    if i < dp.length then
      writeDatumParams (dp.set i (((parseRat f).getD 0 : ℚ) : ℝ)) fs (i + 1)
    else none

/-- The 7-parameter post-processing: rotations from arc-seconds to radians,
scale from ppm to a multiplier (`dp[3..5] *= sec2rad; dp[6] = dp[6]/1e6 + 1`). -/
noncomputable def scaleSevenParams (dp : List ℝ) : List ℝ :=
  let dp := dp.set 3 (dp.getD 3 0 * sec2rad)
  let dp := dp.set 4 (dp.getD 4 0 * sec2rad)
  let dp := dp.set 5 (dp.getD 5 0 * sec2rad)
  dp.set 6 (dp.getD 6 0 / 1000000.0 + 1)

/-- The parameter-merge step at the top of `pj.setDatum`: the named datum's
`ellps` and definition key are written into the map unconditionally. -/
def setDatumMergedParams (params : Paramset) : Paramset :=
  match psString params "datum" with
  | some name =>
    match datums_list name with
    | some datum =>
      psInsert (psInsert params "ellps" datum.ellipse)
        (keyVal datum.definition.toList).1 (keyVal datum.definition.toList).2
    | none => params
  | none => params

/-- `pj.setDatum`: merge the named datum's `ellps` and definition key into
the parameter set (unconditional map writes, as in the source), then
classify the shift kind.  The `Except.error` case is the Go runtime panic in
the `towgs84` write loop; the Go function's own `error` return is always
`nil`. -/
noncomputable def setDatum (p : Pj) (params : Paramset) :
    Except String (Pj × Paramset) :=
  let params := setDatumMergedParams params
  if (psString params "nadgrids").isSome then
    .ok ({ p with datumType := .gridshift }, params)
  else
    match psString params "catalog" with
    | some catalog =>
      .ok ({ p with datumType := .gridshift, catalogName := catalog }, params)
    | none =>
      match psString params "towgs84" with
      | some towgs84 =>
        let parts := splitOnChar ',' towgs84.toList
        match writeDatumParams (List.replicate 7 (0 : ℝ)) parts 0 with
        | none => .error "runtime error: index out of range"
        | some dp =>
          if parts.length = 7 then
            .ok ({ p with datumType := .sevenParam,
                          datumParams := some (scaleSevenParams dp) }, params)
          else
            .ok ({ p with datumType := .threeParam, datumParams := some dp }, params)
      | none => .ok (p, params)

/-- The catalog-seeding step of `pj.setEllipse`: the named ellipse's major
axis key and shape key are written only where the key is not already set. -/
def setEllipseMergedParams (params : Paramset) : Paramset :=
  match psString params "ellps" with
  | some name =>
    match ellipse_list name with
    | some ellps =>
      let params :=
        if (psGet params (keyVal ellps.major.toList).1).isSome then params
        else psInsert params (keyVal ellps.major.toList).1 (keyVal ellps.major.toList).2
      if (psGet params (keyVal ellps.ell.toList).1).isSome then params
      else psInsert params (keyVal ellps.ell.toList).1 (keyVal ellps.ell.toList).2
    | none => params
  | none => params

/-- `pj.setEllipse`: radius short-circuit, catalog seeding of `a` and the
shape key only where absent, the `es` derivation chain, and the
radius-substitution flags (whose series coefficients are all `0` in the
source, by Go integer constant division).  The Go function's `error` return
is always `nil`. -/
noncomputable def setEllipse (p : Pj) (params : Paramset) : Pj × Paramset :=
  match psFloat params "R" with
  | some r => ({ p with a := (r : ℝ) }, params)
  | none =>
    let params := setEllipseMergedParams params
    let a : ℝ := ((psFloat params "a").getD 0 : ℚ)
    let bes : ℝ × ℝ :=
      match psFloat params "es" with
      | some es => (0, (es : ℚ))
      | none =>
        match psFloat params "e" with
        | some e => (0, ((e : ℚ) : ℝ) * ((e : ℚ) : ℝ))
        | none =>
          match psFloat params "rf" with
          | some rf =>
            let es : ℝ := 1 / ((rf : ℚ) : ℝ)
            (0, es * (2 - es))
          | none =>
            match psFloat params "f" with
            | some f => (0, ((f : ℚ) : ℝ) * (2 - ((f : ℚ) : ℝ)))
            | none =>
              match psFloat params "b" with
              | some bv => (((bv : ℚ) : ℝ), 1 - ((bv : ℚ) : ℝ) * ((bv : ℚ) : ℝ) / (a * a))
              | none => (0, p.es)
    let b := bes.1
    let es := bes.2
    let b := if b = 0 then a * Real.sqrt (1 - es) else b
    if (psBool params "R_A").getD false then
      ({ p with a := a * (1 - es * (sixth + es * (ra4 + es * ra6))), es := 0 }, params)
    else if (psBool params "R_V").getD false then
      ({ p with a := a * (1 - es * (sixth + es * (rv4 + es * rv6))), es := 0 }, params)
    else if (psBool params "R_g").getD false then
      ({ p with a := Real.sqrt (a * b), es := 0 }, params)
    else if (psBool params "R_h").getD false then
      ({ p with a := 2 * a * b / (a + b), es := 0 }, params)
    else
      ({ p with a := a, es := es }, params)

/-! ## The shared forward / inverse pipeline -/

/-- A per-projection kernel function (`translator` in the source). -/
abbrev Translator := ℝ → ℝ → Except String (ℝ × ℝ)

/-- `pj.commonFwd`.  The result triple models Go's `(x, y float64, err error)`:
`none` in a coordinate is the sentinel `hugeVal`. -/
noncomputable def commonFwd (p : Pj) (lam phi : ℝ) (tr : Translator) :
    Option ℝ × Option ℝ × Option String :=
  let t := |phi| - half_pi
  if t > epsln ∨ |lam| > 10 then (none, none, some outOfBoundsMsg)
  else
    let phi :=
      if |t| ≤ epsln then (if phi < 0 then -half_pi else half_pi)
      else if p.geoc then Real.arctan (p.rOneEs * Real.tan phi)
      else phi
    let lam := lam - p.lam0
    let lam := if ¬p.over then adjLng lam else lam
    match tr lam phi with
    | .error e => (none, none, some e)
    | .ok (x, y) =>
      (some (p.fr_meter * (p.a * x + p.x0)), some (p.fr_meter * (p.a * y + p.y0)), none)

/-- `pj.commonInv`.  After `lam, phi, err = tr(x, y)` the source adds `lam0`
to the local `y` and applies `adjLng` to the local `x`; neither write reaches
the returned pair, so they are omitted here.  The `geoc` conversion does
rewrite the returned latitude. -/
noncomputable def commonInv (p : Pj) (x y : Option ℝ) (tr : Translator) :
    Option ℝ × Option ℝ × Option String :=
  match x, y with
  | some x, some y =>
    let x := (x * p.to_meter - p.x0) * p.ra
    let y := (y * p.to_meter - p.y0) * p.ra
    match tr x y with
    | .error e => (none, none, some e)
    | .ok (lam, phi) =>
      let phi :=
        if p.geoc ∧ |(|phi| - half_pi)| > epsln then Real.arctan (p.oneEs * Real.tan phi)
        else phi
      (some lam, some phi, none)
  | _, _ => (none, none, some outOfBoundsMsg)

/-! ## Projection kernels -/

/-- `LngLat.fwd`. -/
noncomputable def lngLatFwd (p : Pj) : Translator := fun lam phi =>
  .ok (lam / p.a, phi / p.a)

/-- `LngLat.inv`. -/
noncomputable def lngLatInv (p : Pj) : Translator := fun x y =>
  .ok (x * p.a, y * p.a)

/-- `Mercator.fwd`: ellipsoidal branch when `es != 0`. -/
noncomputable def mercFwd (p : Pj) : Translator := fun lam phi =>
  if p.es ≠ 0 then
    .ok (p.k0 * lam, -p.k0 * Real.log (tsfn phi (Real.sin phi) p.e))
  else
    .ok (p.k0 * lam, p.k0 * Real.log (Real.tan (fort_pi + 0.5 * phi)))

/-- `Mercator.inv`.  The source calls `phi2(math.Exp(-y/m.k0), m.e)`, so the
first argument of `phi2` (its eccentricity slot) receives `exp(-y/k0)` and
the second (its `ts` slot) receives the eccentricity, and sets
`lng = x * m.k0`; the spherical branch uses `lng = x / m.k0` and the closed
form.  All as in the source. -/
noncomputable def mercInv (p : Pj) : Translator := fun x y =>
  if p.es ≠ 0 then
    match phi2 (Real.exp (-y / p.k0)) p.e with
    | .ok lat => .ok (x * p.k0, lat)
    | .error e => .error e
  else
    .ok (x / p.k0, half_pi - 2 * Real.arctan (Real.exp (-y / p.k0)))

/-- The kernel-specific constants of `LCC` (`c, n, rho0, phi2, phi1, ellips`). -/
structure LCCData where
  c : ℝ := 0
  n : ℝ := 0
  rho0 : ℝ := 0
  phiTwo : ℝ := 0
  phiOne : ℝ := 0
  ellips : Bool := false

/-- `LCC.fwd`: in the pole branch with a compatible cone sign the local
`rho` keeps its zero value, as in the source. -/
noncomputable def lccFwd (p : Pj) (d : LCCData) : Translator := fun lam phi =>
  let done (rho : ℝ) : ℝ × ℝ :=
    let lam := lam * d.n
    (p.k0 * (rho * Real.sin lam), p.k0 * (d.rho0 - rho * Real.cos lam))
  if |(|phi| - half_pi)| < epsln then
    if phi * d.n ≤ 0 then .error "something" else .ok (done 0)
  else if d.ellips then
    .ok (done (d.c * (tsfn phi (Real.sin phi) p.e) ^ d.n))
  else
    .ok (done (d.c * (Real.tan (fort_pi + 0.5 * phi)) ^ (-d.n)))

/-- `Equirectangular.fwd`. -/
noncomputable def eqcFwd (p : Pj) : Translator := fun lam phi =>
  .ok (lam / p.a, phi / p.a)

/-- `Equirectangular.inv` (the `cos(phi1)` scaling of the source). -/
noncomputable def eqcInv (p : Pj) (phi1 : ℝ) : Translator := fun x y =>
  .ok (x * Real.cos phi1 * p.a, y * p.a)

/-- Kernel-specific data attached to a resolved projection handle. -/
inductive KernelData where
  | lnglat
  | merc
  | lcc (d : LCCData)
  | eqc (phi1 : ℝ)

/-- The kernel kinds of `lookupImpl`. -/
inductive KernelKind where
  | lnglat
  | merc
  | lcc
  | eqc
deriving DecidableEq

/-- `lookupImpl`, keyed on the projection code string. -/
def lookupImpl (proj : String) : Option KernelKind :=
  if proj = "latlong" ∨ proj = "longlat" ∨ proj = "latlon" ∨ proj = "lonlat" then
    some .lnglat
  else if proj = "merc" then some .merc
  else if proj = "lcc" then some .lcc
  else if proj = "eqc" then some .eqc
  else none

/-- `LngLat.init`: resets the false easting/northing. -/
noncomputable def lngLatInit (p : Pj) (_params : Paramset) :
    Pj × KernelData × Option String :=
  ({ p with x0 := 0, y0 := 0 }, .lnglat, none)

/-- `Mercator.init`: an optional `lat_ts` replaces `k0` via `msfn`
(ellipsoidal) or `cos` (spherical). -/
noncomputable def mercInit (p : Pj) (params : Paramset) :
    Pj × KernelData × Option String :=
  match psDegree params "lat_ts" with
  | some phits =>
    let phits := |phits|
    if p.e ≠ 0 then
      ({ p with k0 := msfn (Real.sin phits) (Real.cos phits) p.es }, .merc, none)
    else
      ({ p with k0 := Real.cos phits }, .merc, none)
  | none => (p, .merc, none)

/-- `LCC.init`: standard parallels, degeneracy check, cone constants.  The
returned `Option String` is the Go `error`; on the degenerate-parallel error
the fields mutated before the check (`phi1`, `phi2`, possibly `phi0`) keep
their values and the remaining constants keep their zero values, matching
the pointer mutation in the source. -/
noncomputable def lccInit (p : Pj) (params : Paramset) :
    Pj × KernelData × Option String :=
  let phi1 : ℝ := (psDegree params "lat_1").getD 0
  let pphi2 : Pj × ℝ :=
    match psDegree params "lat_2" with
    | some v => (p, v)
    | none =>
      ((if (psString params "lat_0").isSome then p else { p with phi0 := phi1 }), phi1)
  let p := pphi2.1
  let phiTwo := pphi2.2
  if |phi1 + phiTwo| ≤ epsln then
    (p, .lcc { phiTwo := phiTwo, phiOne := phi1 }, some "these can't be the same")
  else
    let sinphi := Real.sin phi1
    let n := sinphi
    let cosphi := Real.cos phi1
    let secant := |phi1 - phiTwo| ≥ epsln
    let ellips := p.es ≠ 0
    if ellips then
      let e := Real.sqrt p.es
      let p := { p with e := e }
      let m1 := msfn sinphi cosphi p.es
      let ml1 := tsfn phi1 sinphi e
      let n :=
        if secant then
          Real.log (m1 / msfn (Real.sin phiTwo) (Real.cos phiTwo) p.es) /
            Real.log (ml1 / tsfn phiTwo (Real.sin phiTwo) e)
        else n
      let c := m1 * ml1 ^ (-n) / n
      let rho0 :=
        if |(|p.phi0| - half_pi)| < epsln then 0
        else c * (tsfn p.phi0 (Real.sin p.phi0) e) ^ n
      (p, .lcc ⟨c, n, rho0, phiTwo, phi1, true⟩, none)
    else
      let n :=
        if secant then
          Real.log (cosphi / Real.cos phiTwo) /
            Real.log (Real.tan (fort_pi + 0.5 * phiTwo) / Real.tan (fort_pi + 0.5 * phi1))
        else n
      let c := cosphi * (Real.tan (fort_pi + 0.5 * phi1)) ^ n / n
      let rho0 :=
        if |(|p.phi0| - half_pi)| < epsln then 0
        else c * (Real.tan (fort_pi + 0.5 * p.phi0)) ^ (-n)
      (p, .lcc ⟨c, n, rho0, phiTwo, phi1, false⟩, none)

/-- `Equirectangular.init`. -/
noncomputable def eqcInit (p : Pj) (params : Paramset) :
    Pj × KernelData × Option String :=
  (p, .eqc ((psDegree params "lat_1").getD 0), none)

/-- Kernel initializer dispatch. -/
noncomputable def kernelInit (k : KernelKind) (p : Pj) (params : Paramset) :
    Pj × KernelData × Option String :=
  match k with
  | .lnglat => lngLatInit p params
  | .merc => mercInit p params
  | .lcc => lccInit p params
  | .eqc => eqcInit p params

/-- A resolved projection handle: the configuration bound to one kernel. -/
structure Handle where
  cfg : Pj
  kd : KernelData

/-- `pj.ToMeter` (the `Mercator` override has the same body). -/
noncomputable def Handle.toMeter (h : Handle) : ℝ := h.cfg.to_meter

/-- `pj.Radius`. -/
noncomputable def Handle.radius (h : Handle) : ℝ := h.cfg.a

/-- The result of `NewProjection`: a Go runtime panic, an error return, or a
projection handle. -/
inductive PResult where
  | panicked (msg : String)
  | failed (e : String)
  | ok (h : Handle)

/-- The derived ellipsoid quantities of `NewProjection`
(`aOrig`, `esOrig`, `e`, `ra`, `oneEs`, `rOneEs`). -/
noncomputable def deriveEllipsoid (pin : Pj) : Pj :=
  { pin with
    aOrig := pin.a, esOrig := pin.es,
    e := Real.sqrt pin.es, ra := 1 / pin.a,
    oneEs := 1 - pin.es, rOneEs := 1 / (1 - pin.es) }

open Classical in
/-- The WGS84-alias reclassification of `NewProjection`. -/
noncomputable def applyWgs84Alias (pin : Pj) : Pj :=
  let dp0 : List ℝ := pin.datumParams.getD []
  if pin.datumType = DatumType.threeParam ∧
      (pin.datumParams = none ∨
        (dp0.getD 0 (0 : ℝ) = 0 ∧ dp0.getD 1 (0 : ℝ) = 0 ∧ dp0.getD 2 (0 : ℝ) = 0)) ∧
      pin.a = (6378137.0 : ℝ) ∧
      |pin.es - (0.006694379990 : ℝ)| < (0.000000000050 : ℝ) then
    { pin with datumType := .wgs84 }
  else pin

/-- The `geoc` / `over` / `lon_wrap` flags of `NewProjection`. -/
noncomputable def applyFlags (pin : Pj) (parms : Paramset) : Pj :=
  let pin := { pin with
    geoc := (psBool parms "geoc").getD false,
    over := (psBool parms "over").getD false }
  match psDegree parms "lon_wrap" with
  | some lwc => { pin with long_wrap_set := true, long_wrap_center := lwc }
  | none => pin

/-- Central meridian / origin latitude / false origin of `NewProjection`. -/
noncomputable def applyPlacement (pin : Pj) (parms : Paramset) : Pj :=
  { pin with
    lam0 := (psDegree parms "lon_0").getD 0,
    phi0 := (psDegree parms "lat_0").getD 0,
    x0 := (((psFloat parms "x_0").getD 0 : ℚ) : ℝ),
    y0 := (((psFloat parms "y_0").getD 0 : ℚ) : ℝ) }

/-- The general scaling of `NewProjection`: `k_0`, else `k`, else `1`. -/
noncomputable def resolveK0 (parms : Paramset) : ℝ :=
  match psFloat parms "k_0" with
  | some k => (k : ℚ)
  | none =>
    match psFloat parms "k" with
    | some k => (k : ℚ)
    | none => 1

/-- The linear-units block of `NewProjection`.  The catalog writes are
immediately overwritten by the unconditional `to_meter = fr_meter = 1`
defaulting whenever the local `s` stayed empty, which includes the
named-unit path; this reproduces the source's control flow. -/
noncomputable def applyUnits (pin : Pj) (parms : Paramset) : Pj :=
  let pinS :=
    match psString parms "units" with
    | some name =>
      match units_list name with
      | some unit =>
        ({ pin with to_meter := (unit.to_meter : ℝ),
                    fr_meter := 1 / (unit.to_meter : ℝ) }, "")
      | none => (pin, "")
    | none => (pin, (psString parms "to_meter").getD "")
  let pin := pinS.1
  if pinS.2 ≠ "" then pin else { pin with to_meter := 1, fr_meter := 1 }

/-- The vertical-units block of `NewProjection` (the named branch writes
`to_meter`/`fr_meter`, as in the source). -/
noncomputable def applyVUnits (pin : Pj) (parms : Paramset) : Pj :=
  let pinS :=
    match psString parms "vunits" with
    | some name =>
      match units_list name with
      | some unit =>
        ({ pin with to_meter := (unit.to_meter : ℝ), fr_meter := (unit.to_meter : ℝ) }, "")
      | none => (pin, "")
    | none => (pin, (psString parms "vto_meter").getD "")
  let pin := pinS.1
  if pinS.2 ≠ "" then pin
  else { pin with vto_meter := pin.to_meter, vfr_meter := pin.fr_meter }

/-- The prime-meridian block of `NewProjection` (note: the source does not
scale the parsed DMS value by `d2r` here). -/
noncomputable def applyPm (pin : Pj) (parms : Paramset) : Pj :=
  match psString parms "pm" with
  | some name =>
    match pm_list name with
    | some pm =>
      { pin with from_greenwich := ((parseDegreeString pm.defn.toList : ℚ) : ℝ) }
    | none => pin
  | none => pin

/-- Whether the `axis` parameter is present with a length other than 3. -/
def axisBad (parms : Paramset) : Bool :=
  match psString parms "axis" with
  | some axis => decide (axis.length ≠ 3)
  | none => false

/-- The `axis` override. -/
def applyAxis (pin : Pj) (parms : Paramset) : Pj :=
  match psString parms "axis" with
  | some axis => { pin with axis := axis }
  | none => pin

/-- The configuration assembled by `newProjectionP` after the scale check,
as a composition of the stage functions, from the ellipsoid-stage record
`pin2` and the (possibly catalog-extended) parameter set `ps2`. -/
noncomputable def assembleCfg (pin2 : Pj) (ps2 : Paramset) : Pj :=
  applyPm (applyVUnits (applyUnits
    { applyPlacement (applyAxis (applyFlags (applyWgs84Alias
        (deriveEllipsoid pin2)) ps2) ps2) ps2 with k0 := resolveK0 ps2 }
    ps2) ps2) ps2

/-- `NewProjection` after parameter parsing: datum and ellipsoid resolution,
derived quantities, WGS84-alias detection, flags, axis check, placement,
scale check, units (with the source's unconditional defaulting), vertical
units, prime meridian, kernel dispatch.  The kernel initializer's error is
discarded (`imp.init(parms)` in the source ignores the return value) and the
handle is returned regardless. -/
noncomputable def newProjectionP (parms : Paramset) : PResult :=
  match psString parms "proj" with
  | none => .failed errUnsupportedProj
  | some proj =>
    let pin : Pj := { axis := "enu", proj := proj }
    match setDatum pin parms with
    | .error m => .panicked m
    | .ok pp =>
      let ep := setEllipse pp.1 pp.2
      let parms := ep.2
      let pin := applyFlags (applyWgs84Alias (deriveEllipsoid ep.1)) parms
      if axisBad parms then .failed errInvalidParam
      else
        let pin := applyPlacement (applyAxis pin parms) parms
        let k0 := resolveK0 parms
        if k0 ≤ 0 then .failed errInvalidParam
        else
          let pin := { pin with k0 := k0 }
          let pin := applyPm (applyVUnits (applyUnits pin parms) parms) parms
          match lookupImpl pin.proj with
          | some k =>
            let ikd := kernelInit k pin parms
            .ok ⟨ikd.1, ikd.2.1⟩
          | none => .failed errUnsupportedProj

/-- `NewProjection(str)`. -/
noncomputable def newProjection (str : String) : PResult :=
  newProjectionP (parseParams str)

/-! Parsed parameter sets of the concrete definition strings studied below
(each equals `parseParams` of its string, by computation). -/

/-- `parseParams "+proj=longlat +units=km +a=6378137"`. -/
def psLonglatKm : Paramset := [("a", "6378137"), ("units", "km"), ("proj", "longlat")]

/-- `parseParams "+proj=merc +a=6378137 +es=0.006 +k=2"`. -/
def psMercEll : Paramset :=
  [("k", "2"), ("es", "0.006"), ("a", "6378137"), ("proj", "merc")]

/-- `parseParams "+proj=lcc +lat_1=18 +lat_2=-18 +a=6378137"`. -/
def psLccDegen : Paramset :=
  [("a", "6378137"), ("lat_2", "-18"), ("lat_1", "18"), ("proj", "lcc")]

/-- `parseParams "+proj=longlat +ellps=WGS84 +datum=WGS84 +units=degrees"`. -/
def psWgsLonglat : Paramset :=
  [("units", "degrees"), ("datum", "WGS84"), ("ellps", "WGS84"), ("proj", "longlat")]

/-- `parseParams "+proj=longlat +a=1 +k_0=2 +k=-1"`. -/
def psK0Pos : Paramset := [("k", "-1"), ("k_0", "2"), ("a", "1"), ("proj", "longlat")]

/-- `parseParams "+proj=merc +a=1 +lat_ts=120"`. -/
def psMercLatTs : Paramset := [("lat_ts", "120"), ("a", "1"), ("proj", "merc")]

/-- `parseParams "+proj=longlat +a=1 +towgs84=1,2,3,4,5,6,7,8"`. -/
def psTowgsEight : Paramset :=
  [("towgs84", "1,2,3,4,5,6,7,8"), ("a", "1"), ("proj", "longlat")]

/-- The derived-ellipsoid record for `+proj=merc +a=1` (unit sphere). -/
noncomputable def mercPjBase : Pj :=
  { proj := "merc", axis := "enu", a := 1, ra := 1, oneEs := 1, rOneEs := 1, aOrig := 1 }

/-- `mercPjBase` after the scale resolution (`k0 = 1`). -/
noncomputable def mercPjScaled : Pj := { mercPjBase with k0 := 1 }

/-- `mercPjScaled` after the linear-units defaulting. -/
noncomputable def mercPjUnits : Pj := { mercPjScaled with to_meter := 1, fr_meter := 1 }

/-- `mercPjUnits` after the vertical-units defaulting: the configuration
`NewProjection` hands to the Mercator initializer for `+proj=merc +a=1`. -/
noncomputable def mercPjCfg : Pj := { mercPjUnits with vto_meter := 1, vfr_meter := 1 }

/-- The parameter set after `setDatum` merges the WGS84 datum-catalog entry
into `psWgsLonglat` (`ellps` then the `towgs84=0,0,0` definition key). -/
def psWgsMerged : Paramset :=
  [("towgs84", "0,0,0"), ("ellps", "WGS84"),
   ("units", "degrees"), ("datum", "WGS84"), ("ellps", "WGS84"), ("proj", "longlat")]

/-- `psWgsMerged` after `setEllipse` seeds the WGS84 ellipse-catalog keys
(`a` then `rf`, both absent before). -/
def psWgsEll : Paramset :=
  [("rf", "298.257223563"), ("a", "6378137.0"),
   ("towgs84", "0,0,0"), ("ellps", "WGS84"),
   ("units", "degrees"), ("datum", "WGS84"), ("ellps", "WGS84"), ("proj", "longlat")]

/-- The exact rational parsed from the catalog value `a=6378137.0`. -/
def wgsAQ : ℚ := 6378137 + 0 / 10 ^ 1

/-- The exact rational parsed from the catalog value `rf=298.257223563`. -/
def wgsRfQ : ℚ := 298 + 257223563 / 10 ^ 9

/-- The squared eccentricity derived from `rf` in `setEllipse`:
`es = (1/rf) * (2 - 1/rf)`. -/
noncomputable def wgsEs : ℝ := 1 / (wgsRfQ : ℝ) * (2 - 1 / (wgsRfQ : ℝ))

/-- The 7-element datum-parameter slice after the `towgs84=0,0,0` writes. -/
noncomputable def wgsDp : List ℝ :=
  [((0 : ℚ) : ℝ), ((0 : ℚ) : ℝ), ((0 : ℚ) : ℝ), 0, 0, 0, 0]

/-- The record produced by `setDatum` for the WGS84 scenario: a 3-parameter
shift with the zero parameters. -/
noncomputable def wgsPin1 : Pj :=
  { axis := "enu", proj := "longlat", datumType := .threeParam,
    datumParams := some wgsDp }

/-- `wgsPin1` after `setEllipse` (major axis and `rf`-derived shape). -/
noncomputable def wgsPin2 : Pj :=
  { wgsPin1 with a := (wgsAQ : ℝ), es := wgsEs }

/-- `wgsPin2` after the derived-ellipsoid quantities. -/
noncomputable def wgsBase : Pj :=
  { axis := "enu", proj := "longlat", datumType := .threeParam,
    datumParams := some wgsDp, a := (wgsAQ : ℝ), es := wgsEs,
    e := Real.sqrt wgsEs, ra := 1 / (wgsAQ : ℝ), oneEs := 1 - wgsEs,
    rOneEs := 1 / (1 - wgsEs), aOrig := (wgsAQ : ℝ), esOrig := wgsEs }

/-- `wgsBase` after the WGS84-alias reclassification (the zero 3-parameter
shift on the WGS84 ellipsoid is detected). -/
noncomputable def wgsAliased : Pj := { wgsBase with datumType := .wgs84 }

/-- `wgsAliased` after the scale resolution (`k0 = 1`). -/
noncomputable def wgsScaled : Pj := { wgsAliased with k0 := 1 }

/-- `wgsScaled` after the linear-units defaulting. -/
noncomputable def wgsUnits : Pj := { wgsScaled with to_meter := 1, fr_meter := 1 }

/-- `wgsUnits` after the vertical-units defaulting: the configuration of the
resolved `+proj=longlat +ellps=WGS84 +datum=WGS84 +units=degrees` handle. -/
noncomputable def wgsCfg : Pj := { wgsUnits with vto_meter := 1, vfr_meter := 1 }

/-- The record produced by `setEllipse` for
`+proj=merc +a=6378137 +es=0.006 +k=2` (explicit `a` and `es`). -/
noncomputable def mercEllPin2 : Pj :=
  { axis := "enu", proj := "merc", a := ((6378137 : ℚ) : ℝ),
    es := ((0 + 6 / 10 ^ 3 : ℚ) : ℝ) }

/-- `mercEllPin2` after the derived-ellipsoid quantities. -/
noncomputable def mercEllBase : Pj :=
  { axis := "enu", proj := "merc", a := ((6378137 : ℚ) : ℝ),
    es := ((0 + 6 / 10 ^ 3 : ℚ) : ℝ),
    e := Real.sqrt ((0 + 6 / 10 ^ 3 : ℚ) : ℝ), ra := 1 / ((6378137 : ℚ) : ℝ),
    oneEs := 1 - ((0 + 6 / 10 ^ 3 : ℚ) : ℝ),
    rOneEs := 1 / (1 - ((0 + 6 / 10 ^ 3 : ℚ) : ℝ)),
    aOrig := ((6378137 : ℚ) : ℝ), esOrig := ((0 + 6 / 10 ^ 3 : ℚ) : ℝ) }

/-- `mercEllBase` after the scale resolution (`k0` from `k=2`). -/
noncomputable def mercEllScaled : Pj := { mercEllBase with k0 := ((2 : ℚ) : ℝ) }

/-- `mercEllScaled` after the linear-units defaulting. -/
noncomputable def mercEllUnits : Pj :=
  { mercEllScaled with to_meter := 1, fr_meter := 1 }

/-- `mercEllUnits` after the vertical-units defaulting: the configuration of
the resolved `+proj=merc +a=6378137 +es=0.006 +k=2` handle. -/
noncomputable def mercEllCfg : Pj := { mercEllUnits with vto_meter := 1, vfr_meter := 1 }

/-- The result of a `Forward`/`Inverse` call on a handle: either a Go
runtime panic (the `LCC` inverse) or the `(x, y, err)` triple. -/
inductive CallResult where
  | panicked (msg : String)
  | ret (out : Option ℝ × Option ℝ × Option String)

/-- `Forward` dispatch through `commonFwd`. -/
noncomputable def Handle.fwd (h : Handle) (lng lat : ℝ) : CallResult :=
  match h.kd with
  | .lnglat => .ret (commonFwd h.cfg lng lat (lngLatFwd h.cfg))
  | .merc => .ret (commonFwd h.cfg lng lat (mercFwd h.cfg))
  | .lcc d => .ret (commonFwd h.cfg lng lat (lccFwd h.cfg d))
  | .eqc _ => .ret (commonFwd h.cfg lng lat (eqcFwd h.cfg))

/-- `Inverse` dispatch through `commonInv`.  The `LCC` inverse kernel is
`panic("don't call this")`; `commonInv` reaches the kernel only after the
sentinel check, so sentinel inputs still return the out-of-range error. -/
noncomputable def Handle.inv (h : Handle) (x y : Option ℝ) : CallResult :=
  match h.kd with
  | .lnglat => .ret (commonInv h.cfg x y (lngLatInv h.cfg))
  | .merc => .ret (commonInv h.cfg x y (mercInv h.cfg))
  | .lcc _ =>
    match x, y with
    | some _, some _ => .panicked "don't call this"
    | _, _ => .ret (none, none, some outOfBoundsMsg)
  | .eqc phi1 => .ret (commonInv h.cfg x y (eqcInv h.cfg phi1))

/-! ## Helper lemmas -/

theorem applyWgs84Alias_shape (p : Pj) :
    ∃ dt, applyWgs84Alias p = { p with datumType := dt } := by
  rw [applyWgs84Alias]
  split
  exacts [⟨_, rfl⟩, ⟨_, rfl⟩]

theorem deriveEllipsoid_proj (p : Pj) : (deriveEllipsoid p).proj = p.proj := rfl

theorem applyWgs84Alias_proj (p : Pj) : (applyWgs84Alias p).proj = p.proj := by
  rw [applyWgs84Alias]
  split <;> rfl

theorem applyFlags_proj (p : Pj) (ps : Paramset) : (applyFlags p ps).proj = p.proj := by
  rw [applyFlags]
  split <;> rfl

theorem applyAxis_proj (p : Pj) (ps : Paramset) : (applyAxis p ps).proj = p.proj := by
  rw [applyAxis]
  split <;> rfl

theorem applyPlacement_proj (p : Pj) (ps : Paramset) :
    (applyPlacement p ps).proj = p.proj := rfl

theorem applyUnits_proj (p : Pj) (ps : Paramset) : (applyUnits p ps).proj = p.proj := by
  rw [applyUnits]
  repeat' split
  all_goals rfl

theorem applyVUnits_proj (p : Pj) (ps : Paramset) : (applyVUnits p ps).proj = p.proj := by
  rw [applyVUnits]
  repeat' split
  all_goals rfl

theorem applyPm_proj (p : Pj) (ps : Paramset) : (applyPm p ps).proj = p.proj := by
  rw [applyPm]
  split <;> try split
  all_goals rfl

theorem assembleCfg_proj (pin2 : Pj) (ps2 : Paramset) :
    (assembleCfg pin2 ps2).proj = pin2.proj := by
  rw [assembleCfg, applyPm_proj, applyVUnits_proj, applyUnits_proj]
  dsimp only
  rw [applyPlacement_proj, applyAxis_proj, applyFlags_proj, applyWgs84Alias_proj,
    deriveEllipsoid_proj]

theorem applyPm_id (p : Pj) (ps : Paramset) (h : psString ps "pm" = none) :
    applyPm p ps = p := by
  rw [applyPm, h]

theorem applyAxis_id (p : Pj) (ps : Paramset) (h : psString ps "axis" = none) :
    applyAxis p ps = p := by
  rw [applyAxis, h]

theorem applyVUnits_default (p : Pj) (ps : Paramset)
    (h1 : psString ps "vunits" = none) (h2 : psString ps "vto_meter" = none) :
    applyVUnits p ps = { p with vto_meter := p.to_meter, vfr_meter := p.fr_meter } := by
  rw [applyVUnits, h1, h2]
  dsimp only [Option.getD]
  rw [if_neg (by norm_num)]

theorem applyUnits_named (p : Pj) (ps : Paramset) (name : String)
    (h : psString ps "units" = some name) :
    applyUnits p ps = { p with to_meter := 1, fr_meter := 1 } := by
  rw [applyUnits, h]
  dsimp only
  cases units_list name <;>
    · dsimp only
      rw [if_neg (by norm_num)]

theorem applyUnits_absent (p : Pj) (ps : Paramset)
    (h1 : psString ps "units" = none) (h2 : psString ps "to_meter" = none) :
    applyUnits p ps = { p with to_meter := 1, fr_meter := 1 } := by
  rw [applyUnits, h1, h2]
  dsimp only [Option.getD]
  rw [if_neg (by norm_num)]

theorem applyFlags_eval (p : Pj) (ps : Paramset) (g o : Bool)
    (hg : (psBool ps "geoc").getD false = g) (ho : (psBool ps "over").getD false = o)
    (hw : psDegree ps "lon_wrap" = none) :
    applyFlags p ps = { p with geoc := g, over := o } := by
  rw [applyFlags, hg, ho, hw]

theorem applyWgs84Alias_id (p : Pj) (h : p.datumType ≠ DatumType.threeParam) :
    applyWgs84Alias p = p := by
  rw [applyWgs84Alias]
  rw [if_neg]
  intro hc
  exact h hc.1

theorem setDatum_plain (p : Pj) (ps : Paramset)
    (h1 : psString ps "datum" = none) (h2 : psString ps "nadgrids" = none)
    (h3 : psString ps "catalog" = none) (h4 : psString ps "towgs84" = none) :
    setDatum p ps = .ok (p, ps) := by
  rw [setDatum, setDatumMergedParams, h1]
  dsimp only
  rw [h2]
  dsimp only [Option.isSome]
  rw [if_neg (by norm_num)]
  rw [h3]
  dsimp only
  rw [h4]

theorem setEllipse_a_only (p : Pj) (ps : Paramset) (aq : ℚ)
    (hR : psFloat ps "R" = none) (hellps : psString ps "ellps" = none)
    (ha : psFloat ps "a" = some aq)
    (hes : psFloat ps "es" = none) (he : psFloat ps "e" = none)
    (hrf : psFloat ps "rf" = none) (hf : psFloat ps "f" = none)
    (hb : psFloat ps "b" = none)
    (hra : psBool ps "R_A" = none) (hrv : psBool ps "R_V" = none)
    (hrg : psBool ps "R_g" = none) (hrh : psBool ps "R_h" = none) :
    setEllipse p ps = ({ p with a := (aq : ℝ), es := p.es }, ps) := by
  rw [setEllipse, hR]
  dsimp only
  rw [setEllipseMergedParams, hellps]
  dsimp only
  rw [hes, he, hrf, hf, hb, ha, hra, hrv, hrg, hrh]
  dsimp only [Option.getD]
  norm_num

theorem setEllipse_a_es (p : Pj) (ps : Paramset) (aq esq : ℚ)
    (hR : psFloat ps "R" = none) (hellps : psString ps "ellps" = none)
    (ha : psFloat ps "a" = some aq) (hes : psFloat ps "es" = some esq)
    (hra : psBool ps "R_A" = none) (hrv : psBool ps "R_V" = none)
    (hrg : psBool ps "R_g" = none) (hrh : psBool ps "R_h" = none) :
    setEllipse p ps = ({ p with a := (aq : ℝ), es := (esq : ℝ) }, ps) := by
  rw [setEllipse, hR]
  dsimp only
  rw [setEllipseMergedParams, hellps]
  dsimp only
  rw [hes, ha, hra, hrv, hrg, hrh]
  dsimp only [Option.getD]
  norm_num

/-- `newProjectionP` on the happy path, decomposed into its stages. -/
theorem newProjectionP_ok (parms : Paramset) (proj : String) (pp : Pj × Paramset)
    (h1 : psString parms "proj" = some proj)
    (h2 : setDatum { axis := "enu", proj := proj } parms = .ok pp)
    (h3 : axisBad (setEllipse pp.1 pp.2).2 = false)
    (h4 : ¬resolveK0 (setEllipse pp.1 pp.2).2 ≤ 0)
    (k : KernelKind)
    (hproj : (setEllipse pp.1 pp.2).1.proj = proj)
    (h5 : lookupImpl proj = some k) :
    newProjectionP parms =
      .ok ⟨(kernelInit k (assembleCfg (setEllipse pp.1 pp.2).1 (setEllipse pp.1 pp.2).2)
              (setEllipse pp.1 pp.2).2).1,
           (kernelInit k (assembleCfg (setEllipse pp.1 pp.2).1 (setEllipse pp.1 pp.2).2)
              (setEllipse pp.1 pp.2).2).2.1⟩ := by
  rw [newProjectionP, h1]
  try dsimp only
  rw [h2]
  try dsimp only
  rw [h3]
  try dsimp only [Bool.false_eq_true, if_false]
  rw [if_neg h4]
  have hp : (assembleCfg (setEllipse pp.1 pp.2).1 (setEllipse pp.1 pp.2).2).proj = proj := by
    rw [assembleCfg_proj, hproj]
  rw [show assembleCfg (setEllipse pp.1 pp.2).1 (setEllipse pp.1 pp.2).2 =
      applyPm (applyVUnits (applyUnits
        { applyPlacement (applyAxis (applyFlags (applyWgs84Alias
            (deriveEllipsoid (setEllipse pp.1 pp.2).1)) (setEllipse pp.1 pp.2).2)
            (setEllipse pp.1 pp.2).2) (setEllipse pp.1 pp.2).2 with
          k0 := resolveK0 (setEllipse pp.1 pp.2).2 }
        (setEllipse pp.1 pp.2).2) (setEllipse pp.1 pp.2).2) (setEllipse pp.1 pp.2).2
      from rfl] at hp ⊢
  rw [hp, h5]
  simp only [Bool.false_eq_true, if_false]
  try dsimp only

/-- `newProjectionP` when `setDatum` panics. -/
theorem newProjectionP_panic (parms : Paramset) (proj m : String)
    (h1 : psString parms "proj" = some proj)
    (h2 : setDatum { axis := "enu", proj := proj } parms = .error m) :
    newProjectionP parms = .panicked m := by
  rw [newProjectionP, h1]
  try dsimp only
  rw [h2]

/-- `newProjectionP` when the axis check fails. -/
theorem newProjectionP_axis_failed (parms : Paramset) (proj : String) (pp : Pj × Paramset)
    (h1 : psString parms "proj" = some proj)
    (h2 : setDatum { axis := "enu", proj := proj } parms = .ok pp)
    (h3 : axisBad (setEllipse pp.1 pp.2).2 = true) :
    newProjectionP parms = .failed errInvalidParam := by
  rw [newProjectionP, h1]
  try dsimp only
  rw [h2]
  try dsimp only
  rw [h3]
  try dsimp only [if_true]
  simp

/-- `newProjectionP` when the resolved scale is non-positive. -/
theorem newProjectionP_k0_failed (parms : Paramset) (proj : String) (pp : Pj × Paramset)
    (h1 : psString parms "proj" = some proj)
    (h2 : setDatum { axis := "enu", proj := proj } parms = .ok pp)
    (h3 : axisBad (setEllipse pp.1 pp.2).2 = false)
    (h4 : resolveK0 (setEllipse pp.1 pp.2).2 ≤ 0) :
    newProjectionP parms = .failed errInvalidParam := by
  rw [newProjectionP, h1]
  try dsimp only
  rw [h2]
  try dsimp only
  rw [h3]
  try dsimp only [Bool.false_eq_true, if_false]
  rw [if_pos h4]
  simp

/-- The rounded constant `s_pi = 3.14159265359` lies strictly above pi. -/
theorem pi_lt_s_pi : Real.pi < s_pi := by
  have h := Real.pi_lt_d20
  rw [s_pi]
  norm_num at h ⊢
  linarith

theorem adjLng_of_abs_le {x : ℝ} (h : |x| ≤ s_pi) : adjLng x = x := by
  rw [adjLng, if_pos h]

theorem adjLng_of_abs_gt {x : ℝ} (h : ¬|x| ≤ s_pi) :
    adjLng x = two_pi * Int.fract ((x + Real.pi) / two_pi) - Real.pi := by
  rw [adjLng, if_neg h]
  dsimp only
  rw [Int.fract]
  have hpi : two_pi ≠ 0 := by rw [two_pi]; positivity
  field_simp

theorem adjLng_range_of_abs_gt {x : ℝ} (h : ¬|x| ≤ s_pi) :
    -Real.pi ≤ adjLng x ∧ adjLng x < Real.pi := by
  rw [adjLng_of_abs_gt h]
  have h0 := Int.fract_nonneg ((x + Real.pi) / two_pi)
  have h1 := Int.fract_lt_one ((x + Real.pi) / two_pi)
  have hpi := Real.pi_pos
  rw [two_pi] at h0 h1 ⊢
  constructor <;> nlinarith

/-- C7, counterexample: at `x = 3*pi` the result of `adjLng` is `-pi`, which
does not lie in the claimed interval `(-pi, pi]`. -/
theorem adjLng_three_pi_counterexample :
    adjLng (3 * Real.pi) = -Real.pi ∧
      ¬(-Real.pi < adjLng (3 * Real.pi) ∧ adjLng (3 * Real.pi) ≤ Real.pi) := by
  have hpi := Real.pi_gt_three
  have hslt : s_pi < 3 * Real.pi := by
    rw [s_pi]; norm_num; nlinarith
  have habs : ¬|3 * Real.pi| ≤ s_pi := by
    rw [abs_of_nonneg (by positivity)]
    linarith
  have hval : adjLng (3 * Real.pi) = -Real.pi := by
    rw [adjLng_of_abs_gt habs]
    have harg : (3 * Real.pi + Real.pi) / two_pi = (2 : ℝ) := by
      rw [two_pi]
      have : Real.pi ≠ 0 := by positivity
      field_simp
      ring
    rw [harg]
    have : Int.fract (2 : ℝ) = 0 := by
      rw [show ((2 : ℝ) = ((2 : ℤ) : ℝ)) by norm_num, Int.fract_intCast]
    rw [this]
    ring
  refine ⟨hval, ?_⟩
  rw [hval]
  simp only [not_and, not_le]
  intro hcontra
  exact absurd hcontra (lt_irrefl _)

/-- C7, amended: `adjLng` is idempotent; its result always lies in
`[-s_pi, s_pi]` (with `s_pi = 3.14159265359` the rounded constant the bound
check uses, not the exact pi); and it is the identity exactly when
`|x| <= s_pi`. -/
theorem adjLng_idempotent_range_fixed :
    (∀ x : ℝ, adjLng (adjLng x) = adjLng x) ∧
    (∀ x : ℝ, -s_pi ≤ adjLng x ∧ adjLng x ≤ s_pi) ∧
    (∀ x : ℝ, adjLng x = x ↔ |x| ≤ s_pi) := by
  have hps := pi_lt_s_pi
  have range : ∀ x : ℝ, -s_pi ≤ adjLng x ∧ adjLng x ≤ s_pi := by
    intro x
    by_cases h : |x| ≤ s_pi
    · rw [adjLng_of_abs_le h]
      exact abs_le.mp h
    · obtain ⟨h1, h2⟩ := adjLng_range_of_abs_gt h
      constructor <;> linarith
  refine ⟨?_, range, ?_⟩
  · intro x
    by_cases h : |x| ≤ s_pi
    · rw [adjLng_of_abs_le h, adjLng_of_abs_le h]
    · obtain ⟨h1, h2⟩ := adjLng_range_of_abs_gt h
      apply adjLng_of_abs_le
      rw [abs_le]
      constructor <;> linarith
  · intro x
    constructor
    · intro hfix
      by_contra h
      obtain ⟨h1, h2⟩ := adjLng_range_of_abs_gt h
      rw [hfix] at h1 h2
      apply h
      rw [abs_le]
      constructor <;> linarith
    · exact fun h => adjLng_of_abs_le h

/-- C6: the forward pipeline rejects any input with `|lat| - pi/2 > epsln`
or `|lon| > 10`, returning the sentinel pair (modelled as `none`) together
with the out-of-range error; the inverse pipeline fails immediately with the
same error when either input carries the sentinel; hence a forward failure
is detected by the immediately following inverse call. -/
theorem commonFwd_rejects_commonInv_sentinel :
    (∀ (p : Pj) (tr : Translator) (lam phi : ℝ),
        |phi| - half_pi > epsln ∨ |lam| > 10 →
        commonFwd p lam phi tr = (none, none, some outOfBoundsMsg)) ∧
    (∀ (p : Pj) (tr : Translator) (x y : Option ℝ),
        x = none ∨ y = none →
        commonInv p x y tr = (none, none, some outOfBoundsMsg)) ∧
    (∀ (p : Pj) (tr : Translator) (lam phi : ℝ) (x y : Option ℝ) (e : String),
        commonFwd p lam phi tr = (x, y, some e) →
        ∀ (p2 : Pj) (tr2 : Translator),
          commonInv p2 x y tr2 = (none, none, some outOfBoundsMsg)) := by
  have hinv : ∀ (p : Pj) (tr : Translator) (x y : Option ℝ),
      x = none ∨ y = none →
      commonInv p x y tr = (none, none, some outOfBoundsMsg) := by
    intro p tr x y h
    rcases x with _ | xv
    · rcases y with _ | yv <;> rfl
    · rcases y with _ | yv
      · rfl
      · rcases h with h | h <;> simp at h
  have hfwdnone : ∀ (p : Pj) (tr : Translator) (lam phi : ℝ) (x y : Option ℝ)
      (e : String), commonFwd p lam phi tr = (x, y, some e) → x = none ∧ y = none := by
    intro p tr lam phi x y e h
    rw [commonFwd] at h
    split at h
    · injection h with h1 h23
      injection h23 with h2 h3
      exact ⟨h1.symm, h2.symm⟩
    · dsimp only at h
      split at h
      · injection h with h1 h23
        injection h23 with h2 h3
        exact ⟨h1.symm, h2.symm⟩
      · injection h with h1 h23
        injection h23 with h2 h3
        exact absurd h3 (by simp)
  refine ⟨?_, hinv, ?_⟩
  · intro p tr lam phi h
    rw [commonFwd, if_pos h]
  · intro p tr lam phi x y e h p2 tr2
    obtain ⟨hx, hy⟩ := hfwdnone p tr lam phi x y e h
    exact hinv p2 tr2 x y (Or.inl hx)

/-- C6, witness: the forward rejection at `(lam, phi) = (0, 2)` and the
inverse sentinel failure at `(none, some 0)`, on the default configuration
with an identity kernel. -/
theorem commonFwd_rejects_commonInv_sentinel_witness :
    commonFwd {} 0 2 (fun a b => .ok (a, b)) = (none, none, some outOfBoundsMsg) ∧
      commonInv {} none (some 0) (fun a b => .ok (a, b)) =
        (none, none, some outOfBoundsMsg) := by
  constructor
  · apply commonFwd_rejects_commonInv_sentinel.1
    left
    rw [half_pi, epsln]
    have h := Real.pi_lt_d2
    rw [abs_of_nonneg (by norm_num : (0:ℝ) ≤ 2)]
    norm_num at h ⊢
    linarith
  · exact commonFwd_rejects_commonInv_sentinel.2.1 {} _ none (some 0) (Or.inl rfl)

/-- C3: resolving `+proj=longlat +units=km +a=6378137` finds `km` in the
unit catalog (meters-per-unit 1000), yet the resolved configuration reports
`ToMeter() = 1`, because the source's unconditional defaulting overwrites
the catalog assignment; the claim's `to_meter = 1000` is refuted. -/
theorem units_catalog_to_meter_ignored :
    ∃ cfg : Pj,
      newProjection "+proj=longlat +units=km +a=6378137" = .ok ⟨cfg, .lnglat⟩ ∧
      units_list "km" = some ⟨"km", 1000, "Kilometer"⟩ ∧
      Handle.toMeter ⟨cfg, .lnglat⟩ = 1 ∧ Handle.toMeter ⟨cfg, .lnglat⟩ ≠ 1000 := by
  have hps : parseParams "+proj=longlat +units=km +a=6378137" = psLonglatKm := rfl
  have hsd : setDatum { axis := "enu", proj := "longlat" } psLonglatKm =
      .ok ({ axis := "enu", proj := "longlat" }, psLonglatKm) :=
    setDatum_plain _ _ rfl rfl rfl rfl
  have hse : setEllipse { axis := "enu", proj := "longlat" } psLonglatKm =
      ({ axis := "enu", proj := "longlat", a := ((6378137 : ℚ) : ℝ), es := 0 },
        psLonglatKm) :=
    setEllipse_a_only _ _ _ rfl rfl rfl rfl rfl rfl rfl rfl rfl rfl rfl rfl
  have h3 : axisBad (setEllipse { axis := "enu", proj := "longlat" }
      psLonglatKm).2 = false := by
    rw [hse]
    rfl
  have h4 : ¬resolveK0 (setEllipse { axis := "enu", proj := "longlat" }
      psLonglatKm).2 ≤ 0 := by
    rw [hse]
    dsimp only
    rw [show resolveK0 psLonglatKm = (1 : ℝ) from rfl]
    norm_num
  have hproj : (setEllipse { axis := "enu", proj := "longlat" }
      psLonglatKm).1.proj = "longlat" := by
    rw [hse]
  rw [newProjection, hps]
  rw [newProjectionP_ok psLonglatKm "longlat"
      ({ axis := "enu", proj := "longlat" }, psLonglatKm) rfl hsd h3 h4
      .lnglat hproj rfl]
  rw [hse]
  dsimp only [kernelInit, lngLatInit]
  have htm : Pj.to_meter (assembleCfg
      { axis := "enu", proj := "longlat", a := ((6378137 : ℚ) : ℝ), es := 0 }
      psLonglatKm) = 1 := by
    rw [assembleCfg, applyPm_id _ psLonglatKm rfl, applyVUnits_default _ psLonglatKm rfl rfl,
      applyUnits_named _ psLonglatKm "km" rfl]
  refine ⟨_, rfl, rfl, ?_, ?_⟩
  · rw [Handle.toMeter]
    dsimp only
    exact htm
  · rw [Handle.toMeter]
    dsimp only
    rw [htm]
    norm_num

/-- C2: resolving `+proj=lcc +lat_1=18 +lat_2=-18 +a=6378137` does NOT fail:
`NewProjection` returns a handle with no error, even though the `LCC`
initializer reports the degenerate-parallels error on exactly these
parameters (`|lat_1 + lat_2| <= epsln`) — the source discards the
initializer's return value. -/
theorem lcc_degenerate_error_swallowed :
    (∃ h : Handle,
        newProjection "+proj=lcc +lat_1=18 +lat_2=-18 +a=6378137" = .ok h) ∧
    (∀ (p : Pj) (ps : Paramset) (v1 v2 : ℝ),
        psDegree ps "lat_1" = some v1 → psDegree ps "lat_2" = some v2 →
        |v1 + v2| ≤ epsln →
        (lccInit p ps).2.2 = some "these can't be the same") ∧
    psDegree psLccDegen "lat_1" = some (18 * d2r) ∧
    psDegree psLccDegen "lat_2" = some (-18 * d2r) := by
  have hps : parseParams "+proj=lcc +lat_1=18 +lat_2=-18 +a=6378137" = psLccDegen := rfl
  have hsd : setDatum { axis := "enu", proj := "lcc" } psLccDegen =
      .ok ({ axis := "enu", proj := "lcc" }, psLccDegen) :=
    setDatum_plain _ _ rfl rfl rfl rfl
  have hse : setEllipse { axis := "enu", proj := "lcc" } psLccDegen =
      ({ axis := "enu", proj := "lcc", a := ((6378137 : ℚ) : ℝ), es := 0 },
        psLccDegen) :=
    setEllipse_a_only _ _ _ rfl rfl rfl rfl rfl rfl rfl rfl rfl rfl rfl rfl
  have h3 : axisBad (setEllipse { axis := "enu", proj := "lcc" }
      psLccDegen).2 = false := by
    rw [hse]
    rfl
  have h4 : ¬resolveK0 (setEllipse { axis := "enu", proj := "lcc" }
      psLccDegen).2 ≤ 0 := by
    rw [hse]
    dsimp only
    rw [show resolveK0 psLccDegen = (1 : ℝ) from rfl]
    norm_num
  have hproj : (setEllipse { axis := "enu", proj := "lcc" }
      psLccDegen).1.proj = "lcc" := by
    rw [hse]
  have hok : newProjection "+proj=lcc +lat_1=18 +lat_2=-18 +a=6378137" = .ok
      ⟨(kernelInit .lcc (assembleCfg (setEllipse { axis := "enu", proj := "lcc" }
          psLccDegen).1 (setEllipse { axis := "enu", proj := "lcc" } psLccDegen).2)
          (setEllipse { axis := "enu", proj := "lcc" } psLccDegen).2).1,
       (kernelInit .lcc (assembleCfg (setEllipse { axis := "enu", proj := "lcc" }
          psLccDegen).1 (setEllipse { axis := "enu", proj := "lcc" } psLccDegen).2)
          (setEllipse { axis := "enu", proj := "lcc" } psLccDegen).2).2.1⟩ := by
    rw [newProjection, hps]
    rw [newProjectionP_ok psLccDegen "lcc"
        ({ axis := "enu", proj := "lcc" }, psLccDegen) rfl hsd h3 h4 .lcc hproj rfl]
  refine ⟨⟨_, hok⟩, ?_, ?_, ?_⟩
  · intro p ps v1 v2 h1 h2 hsum
    rw [lccInit, h1, h2]
    dsimp only [Option.getD]
    rw [if_pos hsum]
  · rw [psDegree, show psGet psLccDegen "lat_1" = some "18" from rfl]
    dsimp only [Option.map]
    rw [show parseDegreeString "18".toList = (18 : ℚ) from by decide]
    norm_num
  · rw [psDegree, show psGet psLccDegen "lat_2" = some "-18" from rfl]
    dsimp only [Option.map]
    rw [show parseDegreeString "-18".toList = (-18 : ℚ) from by decide]
    norm_num

/-- C2, witness: the degeneracy hypothesis discharged at the parsed
parameters of the definition itself (`lat_1 = 18`, `lat_2 = -18`, whose
radian values cancel exactly). -/
theorem lcc_degenerate_error_swallowed_witness :
    (lccInit { axis := "enu", proj := "lcc" } psLccDegen).2.2 =
      some "these can't be the same" := by
  refine lcc_degenerate_error_swallowed.2.1 _ _ (18 * d2r) (-18 * d2r)
    lcc_degenerate_error_swallowed.2.2.1 lcc_degenerate_error_swallowed.2.2.2 ?_
  have : (18 : ℝ) * d2r + -18 * d2r = 0 := by ring
  rw [this, abs_zero, epsln]
  norm_num

theorem writeDatumParams_overflow :
    ∀ (parts : List (List Char)) (dp : List ℝ) (i : ℕ),
      i ≤ dp.length → dp.length < i + parts.length →
      writeDatumParams dp parts i = none := by
  intro parts
  induction parts with
  | nil =>
    intro dp i hle hlt
    simp at hlt
    omega
  | cons f fs ih =>
    intro dp i hle hlt
    rw [writeDatumParams]
    by_cases hi : i < dp.length
    · rw [if_pos hi]
      apply ih
      · simp only [List.length_set]
        omega
      · simp only [List.length_set]
        simp at hlt
        omega
    · rw [if_neg hi]

/-- C10: resolving `+proj=longlat +a=1 +towgs84=1,2,3,4,5,6,7,8` (eight
comma-separated values) runs the datum-shift write loop past the end of the
7-element vector: the embedded `NewProjection` reports the Go runtime panic
(index out of range) instead of completing resolution. -/
theorem towgs84_eight_values_panics :
    newProjection "+proj=longlat +a=1 +towgs84=1,2,3,4,5,6,7,8" =
      .panicked "runtime error: index out of range" := by
  have hps : parseParams "+proj=longlat +a=1 +towgs84=1,2,3,4,5,6,7,8" =
      psTowgsEight := rfl
  have hw : writeDatumParams (List.replicate 7 (0 : ℝ))
      (splitOnChar ',' "1,2,3,4,5,6,7,8".toList) 0 = none := by
    apply writeDatumParams_overflow
    · simp
    · rw [show (splitOnChar ',' "1,2,3,4,5,6,7,8".toList).length = 8 from rfl]
      simp
  have hsd : setDatum { axis := "enu", proj := "longlat" } psTowgsEight =
      .error "runtime error: index out of range" := by
    rw [setDatum, setDatumMergedParams]
    rw [show psString psTowgsEight "datum" = none from rfl]
    dsimp only
    rw [show psString psTowgsEight "nadgrids" = none from rfl]
    dsimp only [Option.isSome]
    rw [if_neg (by norm_num)]
    rw [show psString psTowgsEight "catalog" = none from rfl]
    dsimp only
    rw [show psString psTowgsEight "towgs84" = some "1,2,3,4,5,6,7,8" from rfl]
    dsimp only
    rw [hw]
  rw [newProjection, hps]
  exact newProjectionP_panic psTowgsEight "longlat" _ rfl hsd

/-- C5, amended: when a `datum` name is present and found in the catalog,
`setDatum` writes the datum's ellipsoid name under `ellps` and the datum's
definition key/value into the parameter set unconditionally — the final
parameter set is exactly the input with those two map writes applied on top,
so an explicitly supplied `ellps` (or `towgs84`) is shadowed, not kept. -/
theorem setDatum_merge_unconditional (p : Pj) (ps : Paramset) (name : String)
    (d : GoDatum) (p2 : Pj) (ps2 : Paramset)
    (hname : psString ps "datum" = some name) (hd : datums_list name = some d)
    (hok : setDatum p ps = .ok (p2, ps2)) :
    ps2 = psInsert (psInsert ps "ellps" d.ellipse)
      (keyVal d.definition.toList).1 (keyVal d.definition.toList).2 := by
  rw [setDatum, setDatumMergedParams, hname] at hok
  dsimp only at hok
  rw [hd] at hok
  dsimp only at hok
  repeat' split at hok
  all_goals simp only [Except.ok.injEq, Prod.mk.injEq, reduceCtorEq] at hok
  all_goals first
    | exact hok.2.symm
    | exact hok.elim

theorem setDatum_wgs84_bessel_eval :
    setDatum {} [("ellps", "bessel"), ("datum", "WGS84")] =
      .ok ({ datumType := .threeParam, datumParams := some (List.replicate 7 (0 : ℝ)) },
        [("towgs84", "0,0,0"), ("ellps", "WGS84"),
         ("ellps", "bessel"), ("datum", "WGS84")]) := by
  rw [setDatum, setDatumMergedParams]
  rw [show psString [("ellps", "bessel"), ("datum", "WGS84")] "datum" =
    some "WGS84" from rfl]
  dsimp only
  rw [show datums_list "WGS84" =
    some ⟨"WGS84", "towgs84=0,0,0", "WGS84", ""⟩ from rfl]
  dsimp only
  rw [show keyVal "towgs84=0,0,0".toList = ("towgs84", "0,0,0") from rfl]
  dsimp only [psInsert]
  rw [show psString [("towgs84", "0,0,0"), ("ellps", "WGS84"),
      ("ellps", "bessel"), ("datum", "WGS84")] "nadgrids" = none from rfl]
  dsimp only [Option.isSome]
  rw [if_neg (by norm_num)]
  rw [show psString [("towgs84", "0,0,0"), ("ellps", "WGS84"),
      ("ellps", "bessel"), ("datum", "WGS84")] "catalog" = none from rfl]
  dsimp only
  rw [show psString [("towgs84", "0,0,0"), ("ellps", "WGS84"),
      ("ellps", "bessel"), ("datum", "WGS84")] "towgs84" = some "0,0,0" from rfl]
  dsimp only
  rw [show splitOnChar ',' "0,0,0".toList = [['0'], ['0'], ['0']] from rfl]
  rw [show writeDatumParams (List.replicate 7 (0 : ℝ)) [['0'], ['0'], ['0']] 0 =
      some (List.replicate 7 (0 : ℝ)) from by
    simp [writeDatumParams, List.set, show ((parseRat ['0']).getD 0 : ℚ) = 0 from by
      decide]]
  dsimp only
  rw [if_neg (by norm_num : ¬([['0'], ['0'], ['0']] : List (List Char)).length = 7)]

/-- C5, counterexample: with `ellps=bessel` given explicitly and
`datum=WGS84`, the merged parameter set reports `ellps = "WGS84"` — the
explicit `ellps` does not win, refuting the only-where-absent merge. -/
theorem setDatum_explicit_ellps_loses :
    ∃ (p2 : Pj) (ps2 : Paramset),
      setDatum {} [("ellps", "bessel"), ("datum", "WGS84")] = .ok (p2, ps2) ∧
      psGet ps2 "ellps" = some "WGS84" ∧ psGet ps2 "ellps" ≠ some "bessel" :=
  ⟨_, _, setDatum_wgs84_bessel_eval, rfl, by decide⟩

/-- C5, witness: the amended merge equation discharged at
`datum=WGS84` with an explicit `ellps=bessel`. -/
theorem setDatum_merge_unconditional_witness :
    ∃ (p2 : Pj) (ps2 : Paramset),
      setDatum {} [("ellps", "bessel"), ("datum", "WGS84")] = .ok (p2, ps2) ∧
      ps2 = psInsert (psInsert [("ellps", "bessel"), ("datum", "WGS84")]
        "ellps" "WGS84") "towgs84" "0,0,0" := by
  exact ⟨_, _, setDatum_wgs84_bessel_eval,
    setDatum_merge_unconditional {} _ "WGS84" ⟨"WGS84", "towgs84=0,0,0", "WGS84", ""⟩
      _ _ rfl rfl setDatum_wgs84_bessel_eval⟩

/-- C9: the `degree` accessor on the DMS string `1d0'36"` returns
`(1 + 36/360) * d2r` — the source divides the seconds field by 360 — which
differs from the claimed `(1 + 36/3600) * d2r`. -/
theorem degree_seconds_divided_by_360 :
    psDegree [("x", "1d0'36\"")] "x" = some ((1 + 36 / 360 : ℝ) * d2r) ∧
      (1 + 36 / 360 : ℝ) * d2r ≠ (1 + 36 / 3600 : ℝ) * d2r := by
  constructor
  · rw [psDegree, show psGet [("x", "1d0'36\"")] "x" = some "1d0'36\"" from rfl]
    dsimp only [Option.map]
    rw [show parseDegreeString "1d0'36\"".toList = 1 + 0 / 60 + 36 / 360 from rfl]
    push_cast
    norm_num
  · have hd : d2r ≠ 0 := by
      rw [d2r]
      positivity
    intro heq
    rw [mul_eq_mul_right_iff] at heq
    rcases heq with h | h
    · norm_num at h
    · exact hd h

theorem psGet_psInsert_ne (m : Paramset) (k v k' : String) (h : k ≠ k') :
    psGet (psInsert m k v) k' = psGet m k' := by
  rw [psInsert, psGet, if_neg h]

theorem lookupByName_mem {α : Type} (l : List (String × α)) (k : String) (v : α)
    (h : lookupByName l k = some v) : (k, v) ∈ l := by
  induction l with
  | nil => exact Option.noConfusion h
  | cons p t ih =>
    rw [lookupByName] at h
    split at h
    · next heq =>
        injection h with h
        subst h
        subst heq
        exact List.mem_cons_self _ _
    · exact List.mem_cons_of_mem _ (ih h)

theorem datum_defn_key (name : String) (d : GoDatum) (h : datums_list name = some d) :
    (keyVal d.definition.toList).1 = "towgs84" ∨
      (keyVal d.definition.toList).1 = "nadgrids" := by
  have hmem := lookupByName_mem _ _ _ h
  have hall : ∀ x ∈ datums_catalog, (keyVal x.2.definition.toList).1 = "towgs84" ∨
      (keyVal x.2.definition.toList).1 = "nadgrids" := by decide
  exact hall _ hmem

theorem ellipse_defn_keys (name : String) (el : GoEllipse)
    (h : ellipse_list name = some el) :
    (keyVal el.major.toList).1 = "a" ∧
      ((keyVal el.ell.toList).1 = "rf" ∨ (keyVal el.ell.toList).1 = "b") := by
  have hmem := lookupByName_mem _ _ _ h
  have hall : ∀ x ∈ ellipse_catalog, (keyVal x.2.major.toList).1 = "a" ∧
      ((keyVal x.2.ell.toList).1 = "rf" ∨ (keyVal x.2.ell.toList).1 = "b") := by decide
  exact hall _ hmem

theorem setDatumMergedParams_get_ne (ps : Paramset) (k' : String)
    (h1 : k' ≠ "ellps") (h2 : k' ≠ "towgs84") (h3 : k' ≠ "nadgrids") :
    psGet (setDatumMergedParams ps) k' = psGet ps k' := by
  rw [setDatumMergedParams]
  split
  · next name heq =>
    split
    · next d hd =>
      have hK : (keyVal d.definition.toList).1 ≠ k' := by
        rcases datum_defn_key name d hd with hk | hk <;> rw [hk]
        · exact fun he => h2 he.symm
        · exact fun he => h3 he.symm
      rw [psGet_psInsert_ne _ _ _ _ hK, psGet_psInsert_ne _ _ _ _ (Ne.symm h1)]
    · rfl
  · rfl

theorem setEllipseMergedParams_get_ne (ps : Paramset) (k' : String)
    (h1 : k' ≠ "a") (h2 : k' ≠ "rf") (h3 : k' ≠ "b") :
    psGet (setEllipseMergedParams ps) k' = psGet ps k' := by
  rw [setEllipseMergedParams]
  split
  · next name heq =>
    split
    · next el he =>
      obtain ⟨hmaj, hell⟩ := ellipse_defn_keys name el he
      have hK1 : (keyVal el.major.toList).1 ≠ k' := by
        rw [hmaj]
        exact Ne.symm h1
      have hK2 : (keyVal el.ell.toList).1 ≠ k' := by
        rcases hell with hk | hk <;> rw [hk]
        · exact Ne.symm h2
        · exact Ne.symm h3
      dsimp only
      split <;> split <;>
        simp only [psGet_psInsert_ne _ _ _ _ hK1, psGet_psInsert_ne _ _ _ _ hK2]
    · rfl
  · rfl

theorem setEllipse_get_ne (p : Pj) (ps : Paramset) (k' : String)
    (h1 : k' ≠ "a") (h2 : k' ≠ "rf") (h3 : k' ≠ "b") :
    psGet (setEllipse p ps).2 k' = psGet ps k' := by
  rw [setEllipse]
  split
  · rfl
  · dsimp only
    repeat' split
    all_goals
      · dsimp only
        exact setEllipseMergedParams_get_ne ps k' h1 h2 h3

theorem setDatum_ok_snd (p : Pj) (ps : Paramset) (pp : Pj × Paramset)
    (hok : setDatum p ps = .ok pp) : pp.2 = setDatumMergedParams ps := by
  rw [setDatum] at hok
  split at hok
  · injection hok with hok
    subst hok
    rfl
  · split at hok
    · injection hok with hok
      subst hok
      rfl
    · split at hok
      · dsimp only at hok
        split at hok
        · exact Except.noConfusion hok
        · split at hok
          · injection hok with hok
            subst hok
            rfl
          · injection hok with hok
            subst hok
            rfl
      · injection hok with hok
        subst hok
        rfl

theorem psFloat_eq_of_get {a b : Paramset} {k : String}
    (h : psGet a k = psGet b k) : psFloat a k = psFloat b k := by
  rw [psFloat, psFloat, h]

/-- `resolveK0` reads the same `k_0`/`k` values after the datum and
ellipsoid catalog merges as in the original parameter set: neither merge can
write those keys. -/
theorem resolveK0_invariant (p : Pj) (ps : Paramset) (pp : Pj × Paramset)
    (hok : setDatum p ps = .ok pp) :
    resolveK0 (setEllipse pp.1 pp.2).2 = resolveK0 ps := by
  have hsnd := setDatum_ok_snd p ps pp hok
  have hk0 : psFloat (setEllipse pp.1 pp.2).2 "k_0" = psFloat ps "k_0" := by
    apply psFloat_eq_of_get
    rw [setEllipse_get_ne _ _ _ (by decide) (by decide) (by decide), hsnd,
      setDatumMergedParams_get_ne _ _ (by decide) (by decide) (by decide)]
  have hk : psFloat (setEllipse pp.1 pp.2).2 "k" = psFloat ps "k" := by
    apply psFloat_eq_of_get
    rw [setEllipse_get_ne _ _ _ (by decide) (by decide) (by decide), hsnd,
      setDatumMergedParams_get_ne _ _ (by decide) (by decide) (by decide)]
  rw [resolveK0, resolveK0, hk0, hk]

/-- C8, amended: resolution fails with the invalid-parameter error whenever
the resolved scale (`k_0`, else `k`, else 1) is non-positive — the datum and
ellipsoid catalog merges cannot touch those keys — and every successful
resolution has a strictly positive resolver-stage scale.  A `k <= 0`
alongside a positive `k_0` does NOT fail (priority, not conjunction), and a
kernel initializer may later overwrite `k0` (Mercator `lat_ts`), so only the
resolver-stage value is gated. -/
theorem k0_gate_amended :
    (∀ (parms : Paramset) (proj : String) (pp : Pj × Paramset),
        psString parms "proj" = some proj →
        setDatum { axis := "enu", proj := proj } parms = .ok pp →
        resolveK0 parms ≤ 0 →
        newProjectionP parms = .failed errInvalidParam) ∧
    (∀ (parms : Paramset) (h : Handle),
        newProjectionP parms = .ok h → 0 < resolveK0 parms) := by
  constructor
  · intro parms proj pp h1 h2 hk0
    have hinv := resolveK0_invariant _ _ _ h2
    cases haxis : axisBad (setEllipse pp.1 pp.2).2 with
    | true => exact newProjectionP_axis_failed parms proj pp h1 h2 haxis
    | false =>
      refine newProjectionP_k0_failed parms proj pp h1 h2 haxis ?_
      rw [hinv]
      exact hk0
  · intro parms h hok
    cases hproj : psString parms "proj" with
    | none =>
      rw [newProjectionP, hproj] at hok
      exact PResult.noConfusion hok
    | some proj =>
      cases hsd : setDatum { axis := "enu", proj := proj } parms with
      | error m =>
        rw [newProjectionP_panic parms proj m hproj hsd] at hok
        exact PResult.noConfusion hok
      | ok pp =>
        by_cases hk : resolveK0 (setEllipse pp.1 pp.2).2 ≤ 0
        · cases haxis : axisBad (setEllipse pp.1 pp.2).2 with
          | true =>
            rw [newProjectionP_axis_failed parms proj pp hproj hsd haxis] at hok
            exact PResult.noConfusion hok
          | false =>
            rw [newProjectionP_k0_failed parms proj pp hproj hsd haxis hk] at hok
            exact PResult.noConfusion hok
        · rw [← resolveK0_invariant _ _ _ hsd]
          exact lt_of_not_le hk

/-- C8, counterexample: `+proj=longlat +a=1 +k_0=2 +k=-1` has `k <= 0` yet
resolves successfully (`k_0` wins), refuting "any definition with k <= 0
fails"; and `+proj=merc +a=1 +lat_ts=120` constructs successfully with a
final `k0 = cos(120 deg) < 0`, refuting "k0 is always strictly positive in
any successfully constructed projection". -/
theorem k0_claim_counterexample :
    (∃ h : Handle, newProjection "+proj=longlat +a=1 +k_0=2 +k=-1" = .ok h) ∧
    (∃ h : Handle, newProjection "+proj=merc +a=1 +lat_ts=120" = .ok h ∧
      h.cfg.k0 < 0) := by
  constructor
  · have hsd : setDatum { axis := "enu", proj := "longlat" } psK0Pos =
        .ok ({ axis := "enu", proj := "longlat" }, psK0Pos) :=
      setDatum_plain _ _ rfl rfl rfl rfl
    have hse : setEllipse { axis := "enu", proj := "longlat" } psK0Pos =
        ({ axis := "enu", proj := "longlat", a := ((1 : ℚ) : ℝ), es := 0 }, psK0Pos) :=
      setEllipse_a_only _ _ _ rfl rfl rfl rfl rfl rfl rfl rfl rfl rfl rfl rfl
    have hok : newProjection "+proj=longlat +a=1 +k_0=2 +k=-1" = .ok
        ⟨(kernelInit .lnglat (assembleCfg (setEllipse { axis := "enu", proj := "longlat" }
            psK0Pos).1 (setEllipse { axis := "enu", proj := "longlat" } psK0Pos).2)
            (setEllipse { axis := "enu", proj := "longlat" } psK0Pos).2).1,
         (kernelInit .lnglat (assembleCfg (setEllipse { axis := "enu", proj := "longlat" }
            psK0Pos).1 (setEllipse { axis := "enu", proj := "longlat" } psK0Pos).2)
            (setEllipse { axis := "enu", proj := "longlat" } psK0Pos).2).2.1⟩ := by
      rw [newProjection,
        show parseParams "+proj=longlat +a=1 +k_0=2 +k=-1" = psK0Pos from rfl]
      exact newProjectionP_ok psK0Pos "longlat"
        ({ axis := "enu", proj := "longlat" }, psK0Pos) rfl hsd
        (by rw [hse]; rfl)
        (by rw [hse]
            dsimp only
            rw [show resolveK0 psK0Pos = ((2 : ℚ) : ℝ) from rfl]
            norm_num)
        .lnglat (by rw [hse]) rfl
    exact ⟨_, hok⟩
  · have hsd : setDatum { axis := "enu", proj := "merc" } psMercLatTs =
        .ok ({ axis := "enu", proj := "merc" }, psMercLatTs) :=
      setDatum_plain _ _ rfl rfl rfl rfl
    have hse : setEllipse { axis := "enu", proj := "merc" } psMercLatTs =
        ({ axis := "enu", proj := "merc", a := ((1 : ℚ) : ℝ), es := 0 }, psMercLatTs) :=
      setEllipse_a_only _ _ _ rfl rfl rfl rfl rfl rfl rfl rfl rfl rfl rfl rfl
    have hlatts : psDegree psMercLatTs "lat_ts" = some (((120 : ℚ) : ℝ) * d2r) := by
      rw [psDegree, show psGet psMercLatTs "lat_ts" = some "120" from rfl]
      dsimp only [Option.map]
      rw [show parseDegreeString "120".toList = (120 : ℚ) from by decide]
    have h1 : deriveEllipsoid
        { axis := "enu", proj := "merc", a := ((1 : ℚ) : ℝ), es := 0 } = mercPjBase := by
      rw [deriveEllipsoid, mercPjBase]
      norm_num [Pj.mk.injEq, Real.sqrt_zero]
    have h2 : applyWgs84Alias mercPjBase = mercPjBase :=
      applyWgs84Alias_id _ (fun hc => DatumType.noConfusion hc)
    have h3 : applyFlags mercPjBase psMercLatTs = mercPjBase :=
      applyFlags_eval mercPjBase psMercLatTs false false rfl rfl rfl
    have h4 : applyAxis mercPjBase psMercLatTs = mercPjBase :=
      applyAxis_id _ _ rfl
    have h5 : applyPlacement mercPjBase psMercLatTs = mercPjBase := by
      rw [applyPlacement,
        show psDegree psMercLatTs "lon_0" = none from rfl,
        show psDegree psMercLatTs "lat_0" = none from rfl,
        show psFloat psMercLatTs "x_0" = none from rfl,
        show psFloat psMercLatTs "y_0" = none from rfl]
      dsimp only [Option.getD]
      norm_num [mercPjBase, Pj.mk.injEq]
    have h6 : ({ mercPjBase with k0 := resolveK0 psMercLatTs } : Pj) = mercPjScaled := by
      rw [show resolveK0 psMercLatTs = (1 : ℝ) from rfl, mercPjScaled]
    have h7 : applyUnits mercPjScaled psMercLatTs = mercPjUnits := by
      rw [applyUnits_absent mercPjScaled psMercLatTs rfl rfl, mercPjUnits]
    have h8 : applyVUnits mercPjUnits psMercLatTs = mercPjCfg := by
      rw [applyVUnits_default mercPjUnits psMercLatTs rfl rfl, mercPjCfg]
      rw [show mercPjUnits.to_meter = (1 : ℝ) from rfl,
        show mercPjUnits.fr_meter = (1 : ℝ) from rfl]
    have h9 : applyPm mercPjCfg psMercLatTs = mercPjCfg :=
      applyPm_id _ _ rfl
    have hasm : assembleCfg { axis := "enu", proj := "merc", a := ((1 : ℚ) : ℝ), es := 0 }
        psMercLatTs = mercPjCfg := by
      rw [assembleCfg, h1, h2, h3, h4, h5, h6, h7, h8, h9]
    have hki : kernelInit .merc mercPjCfg psMercLatTs =
        ({ mercPjCfg with k0 := Real.cos |((120 : ℚ) : ℝ) * d2r| }, .merc, none) := by
      rw [kernelInit, mercInit, hlatts]
      dsimp only
      rw [if_neg (by rw [show mercPjCfg.e = (0 : ℝ) from rfl]; exact fun hc => hc rfl)]
    have hok : newProjection "+proj=merc +a=1 +lat_ts=120" = .ok
        ⟨{ mercPjCfg with k0 := Real.cos |((120 : ℚ) : ℝ) * d2r| }, .merc⟩ := by
      rw [newProjection,
        show parseParams "+proj=merc +a=1 +lat_ts=120" = psMercLatTs from rfl]
      rw [newProjectionP_ok psMercLatTs "merc"
        ({ axis := "enu", proj := "merc" }, psMercLatTs) rfl hsd
        (by rw [hse]; rfl)
        (by rw [hse]
            dsimp only
            rw [show resolveK0 psMercLatTs = (1 : ℝ) from rfl]
            norm_num)
        .merc (by rw [hse]) rfl]
      rw [hse]
      dsimp only
      rw [hasm, hki]
    refine ⟨_, hok, ?_⟩
    show Real.cos |((120 : ℚ) : ℝ) * d2r| < 0
    have h120 : ((120 : ℚ) : ℝ) * d2r = Real.pi - Real.pi / 3 := by
      rw [d2r]
      push_cast
      ring
    rw [show |((120 : ℚ) : ℝ) * d2r| = ((120 : ℚ) : ℝ) * d2r from
      abs_of_nonneg (by rw [h120]; linarith [Real.pi_pos])]
    rw [h120, Real.cos_pi_sub, Real.cos_pi_div_three]
    norm_num

/-- C8, witness: the amended failure rule discharged at the concrete
parameter set of `+proj=longlat +k_0=-3`. -/
theorem k0_gate_amended_witness :
    newProjectionP [("k_0", "-3"), ("proj", "longlat")] = .failed errInvalidParam := by
  refine k0_gate_amended.1 _ "longlat"
    ({ axis := "enu", proj := "longlat" }, [("k_0", "-3"), ("proj", "longlat")]) rfl
    (setDatum_plain _ _ rfl rfl rfl rfl) ?_
  rw [show resolveK0 [("k_0", "-3"), ("proj", "longlat")] = ((-3 : ℚ) : ℝ) from rfl]
  norm_num



/-! ## Evaluation of the shared pipeline on in-range inputs -/

theorem commonFwd_eval_nosnap (p : Pj) (lam phi : ℝ) (tr : Translator) (xr yr : ℝ)
    (hcond : ¬(|phi| - half_pi > epsln ∨ |lam| > 10))
    (hsnap : ¬|(|phi| - half_pi)| ≤ epsln)
    (hgeoc : p.geoc = false) (hover : p.over = false)
    (htr : tr (adjLng (lam - p.lam0)) phi = .ok (xr, yr)) :
    commonFwd p lam phi tr =
      (some (p.fr_meter * (p.a * xr + p.x0)),
       some (p.fr_meter * (p.a * yr + p.y0)), none) := by
  rw [commonFwd]
  dsimp only
  rw [if_neg hcond, if_neg hsnap, hgeoc, if_neg Bool.false_ne_true, hover,
    if_pos Bool.false_ne_true, htr]

theorem commonFwd_eval_snap_neg (p : Pj) (lam phi : ℝ) (tr : Translator) (xr yr : ℝ)
    (hcond : ¬(|phi| - half_pi > epsln ∨ |lam| > 10))
    (hsnap : |(|phi| - half_pi)| ≤ epsln) (hneg : phi < 0)
    (hover : p.over = false)
    (htr : tr (adjLng (lam - p.lam0)) (-half_pi) = .ok (xr, yr)) :
    commonFwd p lam phi tr =
      (some (p.fr_meter * (p.a * xr + p.x0)),
       some (p.fr_meter * (p.a * yr + p.y0)), none) := by
  rw [commonFwd]
  dsimp only
  rw [if_neg hcond, if_pos hsnap, if_pos hneg, hover, if_pos Bool.false_ne_true, htr]

theorem commonFwd_eval_snap_nonneg (p : Pj) (lam phi : ℝ) (tr : Translator) (xr yr : ℝ)
    (hcond : ¬(|phi| - half_pi > epsln ∨ |lam| > 10))
    (hsnap : |(|phi| - half_pi)| ≤ epsln) (hneg : ¬phi < 0)
    (hover : p.over = false)
    (htr : tr (adjLng (lam - p.lam0)) half_pi = .ok (xr, yr)) :
    commonFwd p lam phi tr =
      (some (p.fr_meter * (p.a * xr + p.x0)),
       some (p.fr_meter * (p.a * yr + p.y0)), none) := by
  rw [commonFwd]
  dsimp only
  rw [if_neg hcond, if_pos hsnap, if_neg hneg, hover, if_pos Bool.false_ne_true, htr]

theorem commonInv_eval_ok (p : Pj) (x y : ℝ) (tr : Translator) (lamr phir : ℝ)
    (hgeoc : p.geoc = false)
    (htr : tr ((x * p.to_meter - p.x0) * p.ra) ((y * p.to_meter - p.y0) * p.ra) =
      .ok (lamr, phir)) :
    commonInv p (some x) (some y) tr = (some lamr, some phir, none) := by
  rw [commonInv]
  dsimp only
  rw [htr]
  dsimp only
  rw [hgeoc, if_neg (fun hc => Bool.false_ne_true hc.1)]

theorem commonInv_eval_error (p : Pj) (x y : ℝ) (tr : Translator) (e : String)
    (htr : tr ((x * p.to_meter - p.x0) * p.ra) ((y * p.to_meter - p.y0) * p.ra) =
      .error e) :
    commonInv p (some x) (some y) tr = (none, none, some e) := by
  rw [commonInv]
  dsimp only
  rw [htr]

/-! ## Resolution of the WGS84 longlat scenario -/

theorem setDatum_wgs :
    setDatum { axis := "enu", proj := "longlat" } psWgsLonglat =
      .ok (wgsPin1, psWgsMerged) := rfl

theorem setEllipse_wgs : setEllipse wgsPin1 psWgsMerged = (wgsPin2, psWgsEll) := rfl

theorem deriveEllipsoid_wgs : deriveEllipsoid wgsPin2 = wgsBase := rfl

theorem applyWgs84Alias_wgs : applyWgs84Alias wgsBase = wgsAliased := by
  have h0 : ((wgsBase.datumParams.getD []).getD 0 (0 : ℝ)) = 0 := by
    rw [show (wgsBase.datumParams.getD []).getD 0 (0 : ℝ) = ((0 : ℚ) : ℝ) from rfl]
    norm_num
  have h1 : ((wgsBase.datumParams.getD []).getD 1 (0 : ℝ)) = 0 := by
    rw [show (wgsBase.datumParams.getD []).getD 1 (0 : ℝ) = ((0 : ℚ) : ℝ) from rfl]
    norm_num
  have h2 : ((wgsBase.datumParams.getD []).getD 2 (0 : ℝ)) = 0 := by
    rw [show (wgsBase.datumParams.getD []).getD 2 (0 : ℝ) = ((0 : ℚ) : ℝ) from rfl]
    norm_num
  have ha : wgsBase.a = (6378137.0 : ℝ) := by
    rw [show wgsBase.a = (wgsAQ : ℝ) from rfl, wgsAQ]
    push_cast
    norm_num
  have hes : |wgsBase.es - (0.006694379990 : ℝ)| < (0.000000000050 : ℝ) := by
    rw [show wgsBase.es = wgsEs from rfl, wgsEs]
    have hr : (wgsRfQ : ℝ) = 298.257223563 := by
      rw [wgsRfQ]
      push_cast
      norm_num
    rw [hr, abs_lt]
    constructor <;> norm_num
  rw [applyWgs84Alias]
  rw [if_pos ⟨rfl, Or.inr ⟨h0, h1, h2⟩, ha, hes⟩]
  rfl

theorem applyFlags_wgs : applyFlags wgsAliased psWgsEll = wgsAliased :=
  applyFlags_eval wgsAliased psWgsEll false false rfl rfl rfl

theorem applyAxis_wgs : applyAxis wgsAliased psWgsEll = wgsAliased :=
  applyAxis_id _ _ rfl

theorem applyPlacement_wgs : applyPlacement wgsAliased psWgsEll = wgsAliased := by
  rw [applyPlacement,
    show psDegree psWgsEll "lon_0" = none from rfl,
    show psDegree psWgsEll "lat_0" = none from rfl,
    show psFloat psWgsEll "x_0" = none from rfl,
    show psFloat psWgsEll "y_0" = none from rfl]
  dsimp only [Option.getD]
  norm_num [wgsAliased, wgsBase, Pj.mk.injEq]

theorem scale_wgs : ({ wgsAliased with k0 := resolveK0 psWgsEll } : Pj) = wgsScaled := by
  rw [show resolveK0 psWgsEll = (1 : ℝ) from rfl, wgsScaled]

theorem applyUnits_wgs : applyUnits wgsScaled psWgsEll = wgsUnits := by
  rw [applyUnits_named wgsScaled psWgsEll "degrees" rfl, wgsUnits]

theorem applyVUnits_wgs : applyVUnits wgsUnits psWgsEll = wgsCfg := by
  rw [applyVUnits_default wgsUnits psWgsEll rfl rfl, wgsCfg]
  rw [show wgsUnits.to_meter = (1 : ℝ) from rfl,
    show wgsUnits.fr_meter = (1 : ℝ) from rfl]

theorem applyPm_wgs : applyPm wgsCfg psWgsEll = wgsCfg :=
  applyPm_id _ _ rfl

theorem assembleCfg_wgs : assembleCfg wgsPin2 psWgsEll = wgsCfg := by
  rw [assembleCfg, deriveEllipsoid_wgs, applyWgs84Alias_wgs, applyFlags_wgs,
    applyAxis_wgs, applyPlacement_wgs, scale_wgs, applyUnits_wgs, applyVUnits_wgs,
    applyPm_wgs]

theorem kernelInit_wgs :
    kernelInit .lnglat wgsCfg psWgsEll = (wgsCfg, .lnglat, none) := rfl

theorem newProjection_wgs :
    newProjection "+proj=longlat +ellps=WGS84 +datum=WGS84 +units=degrees" =
      .ok ⟨wgsCfg, .lnglat⟩ := by
  rw [newProjection,
    show parseParams "+proj=longlat +ellps=WGS84 +datum=WGS84 +units=degrees" =
      psWgsLonglat from rfl]
  rw [newProjectionP_ok psWgsLonglat "longlat" (wgsPin1, psWgsMerged) rfl setDatum_wgs
    (by rw [setEllipse_wgs]; rfl)
    (by rw [setEllipse_wgs]
        dsimp only
        rw [show resolveK0 psWgsEll = (1 : ℝ) from rfl]
        norm_num)
    .lnglat (by rw [setEllipse_wgs]; rfl) rfl]
  rw [setEllipse_wgs]
  dsimp only
  rw [assembleCfg_wgs, kernelInit_wgs]

/-- Round trip of the `LngLat` kernel through `commonFwd`/`commonInv` for a
configuration with trivial placement, unit metering and `ra = 1/a`: the
longitude is returned exactly, the latitude up to the `epsln` pole snap. -/
theorem lnglat_roundtrip_core (p : Pj) (hgeoc : p.geoc = false)
    (hover : p.over = false) (hlam0 : p.lam0 = 0) (hx0 : p.x0 = 0) (hy0 : p.y0 = 0)
    (htm : p.to_meter = 1) (hfm : p.fr_meter = 1) (hra : p.ra = 1 / p.a)
    (ha : p.a ≠ 0) (lon lat : ℝ)
    (hlon : |lon| ≤ Real.pi) (hlat : |lat| < Real.pi / 2) :
    ∃ y : ℝ, |y - lat| ≤ epsln ∧
      commonFwd p lon lat (lngLatFwd p) = (some lon, some y, none) ∧
      commonInv p (some lon) (some y) (lngLatInv p) = (some lon, some y, none) := by
  have heps : (0 : ℝ) < epsln := by rw [epsln]; norm_num
  have hcond : ¬(|lat| - half_pi > epsln ∨ |lon| > 10) := by
    push_neg
    constructor
    · rw [half_pi]
      linarith
    · linarith [Real.pi_le_four]
  have hadj : adjLng (lon - p.lam0) = lon := by
    rw [hlam0, sub_zero]
    exact adjLng_of_abs_le (hlon.trans pi_lt_s_pi.le)
  have hfix : ∀ phiv : ℝ,
      commonFwd p lon lat (lngLatFwd p) = (some lon, some phiv, none) →
      commonInv p (some lon) (some phiv) (lngLatInv p) =
        (some lon, some phiv, none) := by
    intro phiv _
    refine commonInv_eval_ok p lon phiv (lngLatInv p) lon phiv hgeoc ?_
    have hx : (lon * p.to_meter - p.x0) * p.ra * p.a = lon := by
      rw [htm, hx0, hra]
      field_simp
    have hy : (phiv * p.to_meter - p.y0) * p.ra * p.a = phiv := by
      rw [htm, hy0, hra]
      field_simp
    show Except.ok (_, _) = _
    rw [hx, hy]
  have hxval : ∀ v : ℝ, p.fr_meter * (p.a * (v / p.a) + p.x0) = v := by
    intro v
    rw [hfm, hx0]
    field_simp
  by_cases hsnap : |(|lat| - half_pi)| ≤ epsln
  · by_cases hneg : lat < 0
    · refine ⟨-half_pi, ?_, ?_, ?_⟩
      · rw [show -half_pi - lat = -lat - half_pi from by ring, ← abs_of_neg hneg]
        exact hsnap
      · have hfwd := commonFwd_eval_snap_neg p lon lat (lngLatFwd p)
          (lon / p.a) (-half_pi / p.a) hcond hsnap hneg hover (by rw [hadj]; rfl)
        rw [hfwd, hxval lon, show p.fr_meter * (p.a * (-half_pi / p.a) + p.y0) =
          -half_pi from by rw [hfm, hy0]; field_simp; ring]
      · apply hfix
        have hfwd := commonFwd_eval_snap_neg p lon lat (lngLatFwd p)
          (lon / p.a) (-half_pi / p.a) hcond hsnap hneg hover (by rw [hadj]; rfl)
        rw [hfwd, hxval lon, show p.fr_meter * (p.a * (-half_pi / p.a) + p.y0) =
          -half_pi from by rw [hfm, hy0]; field_simp; ring]
    · refine ⟨half_pi, ?_, ?_, ?_⟩
      · rw [show half_pi - lat = -(lat - half_pi) from by ring, abs_neg,
          ← abs_of_nonneg (not_lt.mp hneg)]
        exact hsnap
      · have hfwd := commonFwd_eval_snap_nonneg p lon lat (lngLatFwd p)
          (lon / p.a) (half_pi / p.a) hcond hsnap hneg hover (by rw [hadj]; rfl)
        rw [hfwd, hxval lon, show p.fr_meter * (p.a * (half_pi / p.a) + p.y0) =
          half_pi from by rw [hfm, hy0]; field_simp]
      · apply hfix
        have hfwd := commonFwd_eval_snap_nonneg p lon lat (lngLatFwd p)
          (lon / p.a) (half_pi / p.a) hcond hsnap hneg hover (by rw [hadj]; rfl)
        rw [hfwd, hxval lon, show p.fr_meter * (p.a * (half_pi / p.a) + p.y0) =
          half_pi from by rw [hfm, hy0]; field_simp]
  · refine ⟨lat, ?_, ?_, ?_⟩
    · rw [sub_self, abs_zero]
      exact heps.le
    · have hfwd := commonFwd_eval_nosnap p lon lat (lngLatFwd p)
        (lon / p.a) (lat / p.a) hcond hsnap hgeoc hover (by rw [hadj]; rfl)
      rw [hfwd, hxval lon, show p.fr_meter * (p.a * (lat / p.a) + p.y0) =
        lat from by rw [hfm, hy0]; field_simp]
    · apply hfix
      have hfwd := commonFwd_eval_nosnap p lon lat (lngLatFwd p)
        (lon / p.a) (lat / p.a) hcond hsnap hgeoc hover (by rw [hadj]; rfl)
      rw [hfwd, hxval lon, show p.fr_meter * (p.a * (lat / p.a) + p.y0) =
        lat from by rw [hfm, hy0]; field_simp]

/-- C4: resolving `+proj=longlat +ellps=WGS84 +datum=WGS84 +units=degrees`
succeeds, and for every `lon` in `(-pi, pi]` and `lat` in `(-pi/2, pi/2)`
the Geographic kernel's `Forward` returns the same radian pair up to `1e-5`
(the longitude exactly, the latitude up to the `epsln` pole snap), and
`Inverse` of that result returns the forwarded pair, hence the original pair
within `1e-5`. -/
theorem longlat_roundtrip (lon lat : ℝ)
    (hlon1 : -Real.pi < lon) (hlon2 : lon ≤ Real.pi)
    (hlat1 : -(Real.pi / 2) < lat) (hlat2 : lat < Real.pi / 2) :
    ∃ hdl : Handle,
      newProjection "+proj=longlat +ellps=WGS84 +datum=WGS84 +units=degrees" =
        .ok hdl ∧
      ∃ x y : ℝ, hdl.fwd lon lat = .ret (some x, some y, none) ∧
        |x - lon| ≤ 1e-5 ∧ |y - lat| ≤ 1e-5 ∧
        ∃ lng1 lat1 : ℝ,
          hdl.inv (some x) (some y) = .ret (some lng1, some lat1, none) ∧
          |lng1 - lon| ≤ 1e-5 ∧ |lat1 - lat| ≤ 1e-5 := by
  refine ⟨⟨wgsCfg, .lnglat⟩, newProjection_wgs, ?_⟩
  have hA : wgsCfg.a ≠ 0 := by
    rw [show wgsCfg.a = (wgsAQ : ℝ) from rfl, wgsAQ]
    push_cast
    norm_num
  obtain ⟨y, hyeps, hfwd, hinv⟩ :=
    lnglat_roundtrip_core wgsCfg rfl rfl rfl rfl rfl rfl rfl rfl hA lon lat
      (abs_le.mpr ⟨hlon1.le, hlon2⟩) (abs_lt.mpr ⟨hlat1, hlat2⟩)
  have hyb : |y - lat| ≤ 1e-5 := by
    refine hyeps.trans ?_
    rw [epsln]
    norm_num
  refine ⟨lon, y, ?_, by rw [sub_self, abs_zero]; norm_num, hyb, lon, y, ?_,
    by rw [sub_self, abs_zero]; norm_num, hyb⟩
  · show CallResult.ret (commonFwd wgsCfg lon lat (lngLatFwd wgsCfg)) = _
    rw [hfwd]
  · show CallResult.ret (commonInv wgsCfg (some lon) (some y) (lngLatInv wgsCfg)) = _
    rw [hinv]

/-- Witness for C4 at the spec's end-to-end scenario point
`(18.5 deg, 54.2 deg)` in radians. -/
theorem longlat_roundtrip_witness :
    (-Real.pi < 18.5 * d2r ∧ 18.5 * d2r ≤ Real.pi ∧
      -(Real.pi / 2) < 54.2 * d2r ∧ 54.2 * d2r < Real.pi / 2) ∧
    ∃ hdl : Handle,
      newProjection "+proj=longlat +ellps=WGS84 +datum=WGS84 +units=degrees" =
        .ok hdl ∧
      ∃ x y : ℝ, hdl.fwd (18.5 * d2r) (54.2 * d2r) = .ret (some x, some y, none) ∧
        |x - 18.5 * d2r| ≤ 1e-5 ∧ |y - 54.2 * d2r| ≤ 1e-5 ∧
        ∃ lng1 lat1 : ℝ,
          hdl.inv (some x) (some y) = .ret (some lng1, some lat1, none) ∧
          |lng1 - 18.5 * d2r| ≤ 1e-5 ∧ |lat1 - 54.2 * d2r| ≤ 1e-5 := by
  have h1 : -Real.pi < 18.5 * d2r := by
    rw [d2r]
    nlinarith [Real.pi_pos]
  have h2 : 18.5 * d2r ≤ Real.pi := by
    rw [d2r]
    nlinarith [Real.pi_pos]
  have h3 : -(Real.pi / 2) < 54.2 * d2r := by
    rw [d2r]
    nlinarith [Real.pi_pos]
  have h4 : 54.2 * d2r < Real.pi / 2 := by
    rw [d2r]
    nlinarith [Real.pi_pos]
  exact ⟨⟨h1, h2, h3, h4⟩, longlat_roundtrip (18.5 * d2r) (54.2 * d2r) h1 h2 h3 h4⟩

/-! ## Resolution of the ellipsoidal Mercator scenario -/

theorem setEllipse_mercEll :
    setEllipse { axis := "enu", proj := "merc" } psMercEll = (mercEllPin2, psMercEll) := rfl

theorem deriveEllipsoid_mercEll : deriveEllipsoid mercEllPin2 = mercEllBase := rfl

theorem applyWgs84Alias_mercEll : applyWgs84Alias mercEllBase = mercEllBase :=
  applyWgs84Alias_id _ (fun hc => DatumType.noConfusion hc)

theorem applyFlags_mercEll : applyFlags mercEllBase psMercEll = mercEllBase :=
  applyFlags_eval mercEllBase psMercEll false false rfl rfl rfl

theorem applyAxis_mercEll : applyAxis mercEllBase psMercEll = mercEllBase :=
  applyAxis_id _ _ rfl

theorem applyPlacement_mercEll : applyPlacement mercEllBase psMercEll = mercEllBase := by
  rw [applyPlacement,
    show psDegree psMercEll "lon_0" = none from rfl,
    show psDegree psMercEll "lat_0" = none from rfl,
    show psFloat psMercEll "x_0" = none from rfl,
    show psFloat psMercEll "y_0" = none from rfl]
  dsimp only [Option.getD]
  norm_num [mercEllBase, Pj.mk.injEq]

theorem scale_mercEll :
    ({ mercEllBase with k0 := resolveK0 psMercEll } : Pj) = mercEllScaled := by
  rw [show resolveK0 psMercEll = ((2 : ℚ) : ℝ) from rfl, mercEllScaled]

theorem applyUnits_mercEll : applyUnits mercEllScaled psMercEll = mercEllUnits := by
  rw [applyUnits_absent mercEllScaled psMercEll rfl rfl, mercEllUnits]

theorem applyVUnits_mercEll : applyVUnits mercEllUnits psMercEll = mercEllCfg := by
  rw [applyVUnits_default mercEllUnits psMercEll rfl rfl, mercEllCfg]
  rw [show mercEllUnits.to_meter = (1 : ℝ) from rfl,
    show mercEllUnits.fr_meter = (1 : ℝ) from rfl]

theorem applyPm_mercEll : applyPm mercEllCfg psMercEll = mercEllCfg :=
  applyPm_id _ _ rfl

theorem assembleCfg_mercEll : assembleCfg mercEllPin2 psMercEll = mercEllCfg := by
  rw [assembleCfg, deriveEllipsoid_mercEll, applyWgs84Alias_mercEll,
    applyFlags_mercEll, applyAxis_mercEll, applyPlacement_mercEll, scale_mercEll,
    applyUnits_mercEll, applyVUnits_mercEll, applyPm_mercEll]

theorem kernelInit_mercEll :
    kernelInit .merc mercEllCfg psMercEll = (mercEllCfg, .merc, none) := rfl

theorem newProjection_mercEll :
    newProjection "+proj=merc +a=6378137 +es=0.006 +k=2" = .ok ⟨mercEllCfg, .merc⟩ := by
  rw [newProjection,
    show parseParams "+proj=merc +a=6378137 +es=0.006 +k=2" = psMercEll from rfl]
  rw [newProjectionP_ok psMercEll "merc" ({ axis := "enu", proj := "merc" }, psMercEll)
    rfl (setDatum_plain _ _ rfl rfl rfl rfl)
    (by rw [setEllipse_mercEll]; rfl)
    (by rw [setEllipse_mercEll]
        dsimp only
        rw [show resolveK0 psMercEll = ((2 : ℚ) : ℝ) from rfl]
        norm_num)
    .merc (by rw [setEllipse_mercEll]; rfl) rfl]
  rw [setEllipse_mercEll]
  dsimp only
  rw [assembleCfg_mercEll, kernelInit_mercEll]

/-- C1, refutation: for the ellipsoidal Mercator configuration
`+proj=merc +a=6378137 +es=0.006 +k=2`, `Forward(0.5, 0.5)` succeeds, but
`Inverse` of the result does not return the longitude to within `1e-5`:
either the latitude solver fails, or the returned longitude is
`k0^2 * 0.5 = 2` (the source computes `lng = x * k0` where the forward
already scaled by `k0`), which is `1.5` away from `0.5`. -/
theorem merc_ellipsoidal_roundtrip_fails :
    ∃ hdl : Handle,
      newProjection "+proj=merc +a=6378137 +es=0.006 +k=2" = .ok hdl ∧
      ∃ x y : ℝ, hdl.fwd 0.5 0.5 = .ret (some x, some y, none) ∧
        ((∃ e, hdl.inv (some x) (some y) = .ret (none, none, some e)) ∨
          ∃ lat1 : ℝ,
            hdl.inv (some x) (some y) = .ret (some 2, some lat1, none) ∧
            ¬|(2 : ℝ) - 0.5| ≤ 1e-5) := by
  refine ⟨⟨mercEllCfg, .merc⟩, newProjection_mercEll, ?_⟩
  have hes0 : mercEllCfg.es ≠ 0 := by
    rw [show mercEllCfg.es = ((0 + 6 / 10 ^ 3 : ℚ) : ℝ) from rfl]
    push_cast
    norm_num
  have habs : |(0.5 : ℝ)| = 0.5 := abs_of_nonneg (by norm_num)
  have hcond : ¬(|(0.5 : ℝ)| - half_pi > epsln ∨ |(0.5 : ℝ)| > 10) := by
    push_neg
    rw [habs, half_pi, epsln]
    constructor
    · linarith [Real.pi_gt_three]
    · norm_num
  have hsnap : ¬|(|(0.5 : ℝ)| - half_pi)| ≤ epsln := by
    rw [habs, abs_of_neg (by rw [half_pi]; linarith [Real.pi_gt_three])]
    rw [half_pi, epsln]
    push_neg
    linarith [Real.pi_gt_three]
  have hadj : adjLng (0.5 - mercEllCfg.lam0) = 0.5 := by
    rw [show mercEllCfg.lam0 = (0 : ℝ) from rfl, sub_zero]
    exact adjLng_of_abs_le (by rw [habs, s_pi]; norm_num)
  have htr : mercFwd mercEllCfg (adjLng (0.5 - mercEllCfg.lam0)) 0.5 =
      .ok (mercEllCfg.k0 * 0.5,
        -mercEllCfg.k0 * Real.log (tsfn 0.5 (Real.sin 0.5) mercEllCfg.e)) := by
    rw [hadj, mercFwd]
    rw [if_pos hes0]
  have hfwd := commonFwd_eval_nosnap mercEllCfg 0.5 0.5 (mercFwd mercEllCfg)
    (mercEllCfg.k0 * 0.5)
    (-mercEllCfg.k0 * Real.log (tsfn 0.5 (Real.sin 0.5) mercEllCfg.e))
    hcond hsnap rfl rfl htr
  refine ⟨mercEllCfg.fr_meter * (mercEllCfg.a * (mercEllCfg.k0 * 0.5) +
      mercEllCfg.x0),
    mercEllCfg.fr_meter * (mercEllCfg.a *
      (-mercEllCfg.k0 * Real.log (tsfn 0.5 (Real.sin 0.5) mercEllCfg.e)) +
      mercEllCfg.y0), ?_, ?_⟩
  · show CallResult.ret (commonFwd mercEllCfg 0.5 0.5 (mercFwd mercEllCfg)) = _
    rw [hfwd]
  · have hinvhead : (⟨mercEllCfg, .merc⟩ : Handle).inv
        (some (mercEllCfg.fr_meter * (mercEllCfg.a * (mercEllCfg.k0 * 0.5) +
          mercEllCfg.x0)))
        (some (mercEllCfg.fr_meter * (mercEllCfg.a *
          (-mercEllCfg.k0 * Real.log (tsfn 0.5 (Real.sin 0.5) mercEllCfg.e)) +
          mercEllCfg.y0))) =
        .ret (commonInv mercEllCfg
          (some (mercEllCfg.fr_meter * (mercEllCfg.a * (mercEllCfg.k0 * 0.5) +
            mercEllCfg.x0)))
          (some (mercEllCfg.fr_meter * (mercEllCfg.a *
            (-mercEllCfg.k0 * Real.log (tsfn 0.5 (Real.sin 0.5) mercEllCfg.e)) +
            mercEllCfg.y0)))
          (mercInv mercEllCfg)) := rfl
    cases hphi : phi2 (Real.exp
        (-((mercEllCfg.fr_meter * (mercEllCfg.a *
            (-mercEllCfg.k0 * Real.log (tsfn 0.5 (Real.sin 0.5) mercEllCfg.e)) +
            mercEllCfg.y0) * mercEllCfg.to_meter - mercEllCfg.y0) *
            mercEllCfg.ra) / mercEllCfg.k0)) mercEllCfg.e with
    | error e =>
      refine Or.inl ⟨e, ?_⟩
      rw [hinvhead]
      rw [commonInv_eval_error mercEllCfg _ _ (mercInv mercEllCfg) e ?_]
      rw [mercInv]
      rw [if_pos hes0, hphi]
    | ok lat1 =>
      refine Or.inr ⟨lat1, ?_,
        by rw [show (2 : ℝ) - 0.5 = 1.5 from by norm_num,
             abs_of_nonneg (by norm_num : (0 : ℝ) ≤ 1.5)]
           norm_num⟩
      rw [hinvhead]
      have hx2 : ((mercEllCfg.fr_meter * (mercEllCfg.a * (mercEllCfg.k0 * 0.5) +
          mercEllCfg.x0)) * mercEllCfg.to_meter - mercEllCfg.x0) *
          mercEllCfg.ra * mercEllCfg.k0 = 2 := by
        rw [show mercEllCfg.fr_meter = (1 : ℝ) from rfl,
          show mercEllCfg.to_meter = (1 : ℝ) from rfl,
          show mercEllCfg.x0 = (0 : ℝ) from rfl,
          show mercEllCfg.ra = 1 / ((6378137 : ℚ) : ℝ) from rfl,
          show mercEllCfg.a = ((6378137 : ℚ) : ℝ) from rfl,
          show mercEllCfg.k0 = ((2 : ℚ) : ℝ) from rfl]
        push_cast
        have hA : (6378137 : ℝ) ≠ 0 := by norm_num
        field_simp
        norm_num
      have htri : mercInv mercEllCfg
          ((mercEllCfg.fr_meter * (mercEllCfg.a * (mercEllCfg.k0 * 0.5) +
            mercEllCfg.x0) * mercEllCfg.to_meter - mercEllCfg.x0) * mercEllCfg.ra)
          ((mercEllCfg.fr_meter * (mercEllCfg.a *
            (-mercEllCfg.k0 * Real.log (tsfn 0.5 (Real.sin 0.5) mercEllCfg.e)) +
            mercEllCfg.y0) * mercEllCfg.to_meter - mercEllCfg.y0) * mercEllCfg.ra) =
          .ok (2, lat1) := by
        rw [mercInv]
        rw [if_pos hes0, hphi]
        dsimp only
        rw [hx2]
      rw [commonInv_eval_ok mercEllCfg _ _ (mercInv mercEllCfg) 2 lat1 rfl htri]

end Projectron
